import Mathlib

/-!
# Verification of the gameroy emulator core (`src/core/src/gameboy.rs`, `src/core/src/gameboy/ppu.rs`)

A shallow embedding of the core of the `gameroy` Game Boy emulator, together
with proofs about its timer, PPU object scan, pixel FIFOs, bus, DMA, joypad,
interrupt-flag register and save-state codec.

Machine integers are embedded as `Nat` with explicit reductions where wraparound
can occur (`% 256` for `u8`, `% 65536` for `u16`).  The 64-bit clock counters
are embedded as plain `Nat` additions (a `u64` tick counter cannot overflow on
any realisable time scale); explicit wrapping subtraction `wsub64` is used where
the Rust code subtracts `u64` values.

Code of the repository that is not part of the provided sources (the
`SaveState` primitive codec, the `Cpu`, `Cartridge` and `SoundController`
types) is modelled from the specification; every such definition carries a
doc comment starting with `Modelled from the spec:`.
-/

namespace GBCore

/-- `u16` modulus. -/
def U16 : Nat := 65536

/-- `u64` modulus. -/
def U64 : Nat := 18446744073709551616

/-- Wrapping `u8` subtraction `a - b` (both operands reduced to 8 bits). -/
def wsub8 (a b : Nat) : Nat := (a % 256 + 256 - b % 256) % 256

/-- Wrapping `u64` subtraction `a - b` (both operands reduced to 64 bits). -/
def wsub64 (a b : Nat) : Nat := (a % U64 + U64 - b % U64) % U64

/-- `u8::reverse_bits`. -/
def bitrev8 (v : Nat) : Nat :=
  (List.range 8).foldl (fun acc i => acc ||| (((v >>> i) &&& 1) <<< (7 - i))) 0

/-! ## Timer (`gameboy.rs:8-98`) -/

/-- The `Timer` struct of `gameboy.rs`. -/
structure Timer where
  div : Nat
  tima : Nat
  tma : Nat
  tac : Nat
  last_counter_bit : Bool
  last_clock_count : Nat
  deriving Repr, DecidableEq

/-- `Timer::default()`. -/
def Timer.default : Timer :=
  { div := 0, tima := 0, tma := 0, tac := 0,
    last_counter_bit := false, last_clock_count := 0 }

/-- One iteration of the `for _ in self.last_clock_count..clock_count` loop in
`Timer::update`: increment `div`, compute the counter bit, increment TIMA on a
falling edge and reload from TMA on overflow.  Returns the new timer and
whether TIMA overflowed in this cycle. -/
def Timer.cycle (t : Timer) : Timer × Bool :=
  let div := (t.div + 1) % U16
  let f := [9, 3, 5, 7].getD (t.tac &&& 0b11) 0
  let counter_bit := ((((div >>> f) % 256) &&& (t.tac >>> 2)) &&& 0b1) != 0
  if t.last_counter_bit && !counter_bit then
    if t.tima + 1 ≥ 256 then
      ({ t with div := div, tima := t.tma, last_counter_bit := counter_bit }, true)
    else
      ({ t with div := div, tima := t.tima + 1, last_counter_bit := counter_bit }, false)
  else
    ({ t with div := div, last_counter_bit := counter_bit }, false)

/-- The update loop of `Timer::update`, run for `n` cycles; the returned `Bool`
is the `interrupt` accumulator (true as soon as one cycle overflows TIMA). -/
def Timer.updateLoop : Timer → Nat → Timer × Bool
  | t, 0 => (t, false)
  | t, n + 1 =>
    let s := t.cycle
    let r := Timer.updateLoop s.1 n
    (r.1, s.2 || r.2)

/-- `Timer::update` (`gameboy.rs:44-69`): advance by one cycle for every clock
in `last_clock_count..clock_count`, then set `last_clock_count`. -/
def Timer.update (t : Timer) (clock_count : Nat) : Timer × Bool :=
  let r := Timer.updateLoop t (clock_count - t.last_clock_count)
  ({ r.1 with last_clock_count := clock_count }, r.2)

/-- `Timer::read_div`: the visible DIV register is the high byte of `div`. -/
def Timer.read_div (t : Timer) : Nat := (t.div >>> 8) % 256

/-- `Timer::write_div`: any write resets the internal divider. -/
def Timer.write_div (t : Timer) (_div : Nat) : Timer := { t with div := 0 }

/-- `Timer::write_tima`. -/
def Timer.write_tima (t : Timer) (tima : Nat) : Timer := { t with tima := tima % 256 }

/-- `Timer::write_tma`. -/
def Timer.write_tma (t : Timer) (tma : Nat) : Timer := { t with tma := tma % 256 }

/-- `Timer::write_tac`. -/
def Timer.write_tac (t : Timer) (tac : Nat) : Timer := { t with tac := tac % 256 }

/-! ### Claim-side timer semantics (C1)

These definitions follow the words of the specification (§4.2) and of claim C1,
to be compared with the source-derived `Timer.update` above. -/

/-- The divider tap table of the spec: `tap = {9,3,5,7}` indexed by `tac & 3`. -/
def specTap (tac : Nat) : Nat := [9, 3, 5, 7].getD (tac &&& 3) 0

/-- The "counter bit" of the spec: `((div >> tap[tac&3]) & (tac>>2)) & 1`. -/
def specCounterBit (tac d : Nat) : Bool :=
  (((d >>> specTap tac) &&& (tac >>> 2)) &&& 1) == 1

/-- Timer state as described by claim C1: the divider, TIMA, and the previous
counter bit used by the falling-edge detector. -/
structure TimerSpecState where
  div : Nat
  tima : Nat
  prevBit : Bool
  deriving Repr, DecidableEq

/-- One T-cycle as described by claim C1: `div` is incremented with 16-bit
wraparound; TIMA increments exactly on a falling edge (previous bit 1, current
bit 0) of the counter bit; on TIMA overflow, TIMA is reloaded from TMA and the
overflow is reported. -/
def timerSpecStep (tac tma : Nat) (s : TimerSpecState) : TimerSpecState × Bool :=
  let div := (s.div + 1) % U16
  let bit := specCounterBit tac div
  if s.prevBit ∧ bit = false then
    if s.tima + 1 = 256 then
      ({ div := div, tima := tma, prevBit := bit }, true)
    else
      ({ div := div, tima := s.tima + 1, prevBit := bit }, false)
  else
    ({ div := div, tima := s.tima, prevBit := bit }, false)

/-- Iterated claim-side timer state after `k` T-cycles. -/
def timerSpecIter (tac tma : Nat) (s : TimerSpecState) : Nat → TimerSpecState
  | 0 => s
  | k + 1 => (timerSpecStep tac tma (timerSpecIter tac tma s k)).1

/-- Whether the claim-side machine overflows TIMA during cycle `k`
(i.e. on the step from state `k` to state `k+1`). -/
def timerSpecOverflowAt (tac tma : Nat) (s : TimerSpecState) (k : Nat) : Bool :=
  (timerSpecStep tac tma (timerSpecIter tac tma s k)).2

/-- The claim-side view of a source timer. -/
def Timer.specState (t : Timer) : TimerSpecState :=
  { div := t.div, tima := t.tima, prevBit := t.last_counter_bit }

/-! ## Pixel FIFOs (`ppu.rs:6-94`) -/

/-- The `PixelFifo` struct: a 16-slot ring buffer.  The queue is a function
from slot index to byte; `head` is the next position to push, `tail` the next
position to pop. -/
structure PixelFifo where
  queue : Nat → Nat
  head : Nat
  tail : Nat

/-- `PixelFifo::default()`. -/
def PixelFifo.default : PixelFifo := { queue := fun _ => 0, head := 0, tail := 0 }

/-- `PixelFifo::is_empty`. -/
def PixelFifo.is_empty (f : PixelFifo) : Bool := f.head == f.tail

/-- `PixelFifo::clear`. -/
def PixelFifo.clear (f : PixelFifo) : PixelFifo := { f with head := 0, tail := 0 }

/-- Push one byte at `head` and advance `head` modulo the 16-slot queue. -/
def PixelFifo.push1 (f : PixelFifo) (pixel : Nat) : PixelFifo :=
  { f with queue := fun j => if j = f.head % 16 then pixel else f.queue j,
           head := (f.head + 1) % 16 }

/-- `PixelFifo::push_background` (`ppu.rs:41-50`): decode eight 2-bit pixels
from the two tile bytes, most significant bit first, and push them. -/
def PixelFifo.push_background (f : PixelFifo) (tile_low tile_hight : Nat) : PixelFifo :=
  (List.range 8).reverse.foldl
    (fun acc i =>
      let color := (((tile_hight >>> i) &&& 0x01) <<< 1) ||| ((tile_low >>> i) &&& 0x01)
      acc.push1 color)
    f

/-- The `pixel` closure of `PixelFifo::push_sprite`: a sprite-FIFO byte packs
the 2-bit color, the background-priority flag (bit 3) and the palette-select
flag (bit 4). -/
def spritePixel (tile_low tile_hight : Nat) (palette background_priority : Bool) (x : Nat) : Nat :=
  ((((tile_hight >>> x) &&& 0x01) <<< 1) ||| ((tile_low >>> x) &&& 0x01))
    ||| ((cond background_priority 1 0) <<< 3) ||| ((cond palette 1 0) <<< 4)

/-- The first loop of `PixelFifo::push_sprite`: walk from `tail` towards
`head`, overwriting queued sprite pixels whose color (low 2 bits) is 0;
each step consumes one of the `x` pixels to be merged.  Returns the new queue
and the number of pixels left to append. -/
def overwriteLoop (pix : Nat → Nat) (head : Nat) :
    (Nat → Nat) → Nat → Nat → ((Nat → Nat) × Nat)
  | q, _cursor, 0 => (q, 0)
  | q, cursor, x + 1 =>
    if cursor = head then (q, x + 1)
    else
      let q' := if q cursor &&& 0b11 = 0 then fun j => if j = cursor then pix x else q j else q
      overwriteLoop pix head q' ((cursor + 1) % 16) x

/-- `PixelFifo::push_sprite` (`ppu.rs:52-84`): overwrite transparent queued
sprite pixels, then append the remaining ones at `head`. -/
def PixelFifo.push_sprite (f : PixelFifo) (tile_low tile_hight cut_off : Nat)
    (palette background_priority : Bool) : PixelFifo :=
  let pix := spritePixel tile_low tile_hight palette background_priority
  let r := overwriteLoop pix f.head f.queue f.tail (8 - cut_off)
  (List.range r.2).reverse.foldl (fun acc x => acc.push1 (pix x)) { f with queue := r.1 }

/-- `PixelFifo::pop_front` (`ppu.rs:86-93`). -/
def PixelFifo.pop_front (f : PixelFifo) : Option Nat × PixelFifo :=
  if f.head = f.tail then (none, f)
  else (some (f.queue f.tail), { f with tail := (f.tail + 1) % 16 })

/-- Number of occupied slots of a FIFO whose `head` and `tail` are in range. -/
def PixelFifo.size (f : PixelFifo) : Nat := (f.head + 16 - f.tail) % 16

/-- Well-formedness of a pixel FIFO: indices in range and at most 8 pixels
queued, so that a push of up to 8 pixels can never wrap `head` onto `tail`. -/
def PixelFifo.WF (f : PixelFifo) : Prop :=
  f.head < 16 ∧ f.tail < 16 ∧ f.size ≤ 8

instance (f : PixelFifo) : Decidable f.WF := by
  unfold PixelFifo.WF; infer_instance

/-! ## Sprites and the OAM scan (`ppu.rs:96-120, 552-583`) -/

/-- The `Sprite` struct of `ppu.rs`. -/
structure Sprite where
  sx : Nat
  sy : Nat
  tile : Nat
  flags : Nat
  deriving Repr, DecidableEq, Inhabited

/-- The collection loop of `Ppu::search_objects`: iterate the 40 OAM entries
in address order (`n` entries remaining, current entry index `i`), append each
qualifying sprite, and stop as soon as 10 sprites have been collected. -/
def searchLoop (oam : Nat → Nat) (ly sprite_height : Nat) :
    Nat → Nat → List Sprite → List Sprite
  | 0, _i, acc => acc
  | n + 1, i, acc =>
    let sy := oam (4 * i)
    let sx := oam (4 * i + 1)
    let t := oam (4 * i + 2)
    let flags := oam (4 * i + 3)
    let acc' :=
      if sx > 0 ∧ ly + 16 ≥ sy ∧ ly + 16 < sy + sprite_height then
        acc ++ [{ sx := sx, sy := sy, tile := t, flags := flags }]
      else acc
    if acc'.length = 10 then acc' else searchLoop oam ly sprite_height n (i + 1) acc'

/-- Stable insertion of a sprite into a list sorted by ascending key
(`sort_by_key` key: the bitwise-not of the x position, `255 - sx`, so that the
sort is by descending `sx`).  The element is inserted before the first element
`b` with `key a ≤ key b`; since `sortByKey` inserts earlier elements after
later ones have been sorted, this keeps equal-key elements in their original
relative order, exactly as Rust's stable `sort_by_key` does. -/
def insertByKey (key : Sprite → Nat) (a : Sprite) : List Sprite → List Sprite
  | [] => [a]
  | b :: l => if key a ≤ key b then a :: b :: l else b :: insertByKey key a l

/-- Stable insertion sort by ascending key, modelling `slice::sort_by_key`. -/
def sortByKey (key : Sprite → Nat) : List Sprite → List Sprite
  | [] => []
  | a :: l => insertByKey key a (sortByKey key l)

/-- The sort key of `Ppu::search_objects`: `!x.sx`, the `u8` bitwise not of
the sprite's x position. -/
def spriteKey (s : Sprite) : Nat := 255 - s.sx % 256

/-! ## PPU state (`ppu.rs:153-422`) -/

/-- The `Ppu` struct.  Byte arrays (`vram`, `oam`, `screen`) are embedded as
functions from index to byte; the 10-entry `sprite_buffer` is a length-10 list
(entries beyond `sprite_buffer_len` keep their stale contents, exactly as the
Rust array does). -/
structure Ppu where
  vram : Nat → Nat
  oam : Nat → Nat
  screen : Nat → Nat
  sprite_buffer : List Sprite
  sprite_buffer_len : Nat
  wyc : Nat
  lcdc : Nat
  stat : Nat
  scy : Nat
  scx : Nat
  ly : Nat
  lyc : Nat
  bgp : Nat
  obp0 : Nat
  obp1 : Nat
  wy : Nat
  wx : Nat
  state : Nat
  ly_for_compare : Nat
  stat_signal : Bool
  next_clock_count : Nat
  line_start_clock_count : Nat
  background_fifo : PixelFifo
  sprite_fifo : PixelFifo
  fetcher_step : Nat
  fetcher_skipped_first_push : Bool
  sprite_fetching : Bool
  fetcher_cycle : Bool
  fetcher_x : Nat
  fetch_tile_number : Nat
  fetch_tile_data_low : Nat
  fetch_tile_data_hight : Nat
  reach_window : Bool
  is_in_window : Bool
  curr_x : Nat
  discarting : Nat

/-- `Ppu::default()`. -/
def Ppu.default : Ppu :=
  { vram := fun _ => 0, oam := fun _ => 0, screen := fun _ => 0,
    sprite_buffer := List.replicate 10 (Inhabited.default), sprite_buffer_len := 0,
    wyc := 0, lcdc := 0, stat := 0, scy := 0, scx := 0, ly := 0, lyc := 0,
    bgp := 0, obp0 := 0, obp1 := 0, wy := 0, wx := 0, state := 0,
    ly_for_compare := 0, stat_signal := false, next_clock_count := 0,
    line_start_clock_count := 0, background_fifo := PixelFifo.default,
    sprite_fifo := PixelFifo.default, fetcher_step := 0,
    fetcher_skipped_first_push := false, sprite_fetching := false,
    fetcher_cycle := false, fetcher_x := 0, fetch_tile_number := 0,
    fetch_tile_data_low := 0, fetch_tile_data_hight := 0, reach_window := false,
    is_in_window := false, curr_x := 0, discarting := 0 }

/-- `Ppu::search_objects` (`ppu.rs:552-583`): reset the buffer, collect up to
10 qualifying sprites in OAM address order, then reverse the filled slice and
stably sort it by ascending `!sx` (so the back of the buffer holds the sprite
with the lowest x position). -/
def Ppu.search_objects (p : Ppu) : Ppu :=
  let sprite_height := if (p.lcdc &&& 0x04) != 0 then 16 else 8
  let sel := searchLoop p.oam p.ly sprite_height 40 0 []
  let sorted := sortByKey spriteKey sel.reverse
  { p with sprite_buffer := sorted ++ p.sprite_buffer.drop sorted.length,
           sprite_buffer_len := sorted.length }

/-- `Ppu::set_stat_mode` (`ppu.rs:836-838`). -/
def Ppu.set_stat_mode (p : Ppu) (mode : Nat) : Ppu :=
  { p with stat := (p.stat &&& 0xFC) ||| mode }

/-- `Ppu::update_stat` (`ppu.rs:840-871`): recompute the STAT interrupt line
from the mode sources and the LY=LYC comparison, update the coincidence flag,
and report a rising edge of the line. -/
def Ppu.update_stat (p : Ppu) : Ppu × Bool :=
  let stat_mode := p.stat &&& 0b11
  let stat_line : Bool :=
    if stat_mode = 0 then (p.stat &&& 0x08) != 0
    else if stat_mode = 1 then (p.stat &&& 0x30) != 0
    else if stat_mode = 2 then (p.stat &&& 0x20) != 0
    else false
  let r :=
    if p.ly_for_compare ≠ 0xFF then
      let compare := p.ly_for_compare == p.lyc
      let stat_line := stat_line || (compare && ((p.stat &&& (1 <<< 6)) != 0))
      ({ p with stat := (p.stat &&& 0xFB) ||| ((cond compare 1 0) <<< 2) }, stat_line)
    else (p, stat_line)
  let rising := !r.1.stat_signal && r.2
  ({ r.1 with stat_signal := r.2 }, rising)

/-! ## The pixel pipeline (`ppu.rs:874-1090`) -/

/-- The sprite-fetcher arm of `tick_lcd_fifo` (`ppu.rs:890-956`), run on the
active fetcher half-cycle while `sprite_fetching` holds.  The sprite in flight
is `sprite_buffer[sprite_buffer_len]` (the entry just popped). -/
def spriteFetchStep (ppu : Ppu) (ly : Nat) : Ppu :=
  let sprite := ppu.sprite_buffer.getD ppu.sprite_buffer_len (Inhabited.default)
  let tall := ppu.lcdc &&& 0x04
  let flip_y := sprite.flags &&& 0x40
  let py :=
    if flip_y != 0 then
      let height := if tall != 0 then 16 else 8
      wsub8 (height - 1) (wsub8 (ly + 16) sprite.sy)
    else wsub8 (ly + 16) sprite.sy
  let tile := ppu.fetch_tile_number
  let address := tile * 0x10 + 0x8000
  let offset := (py % 8) * 2
  let fetch_tile_address := address + offset
  if ppu.fetcher_step = 0 then
    let tile := if tall != 0 then ((sprite.tile &&& 0xFE) + py / 8) % 256 else sprite.tile
    { ppu with fetch_tile_number := tile, fetcher_step := 1 }
  else if ppu.fetcher_step = 1 then
    { ppu with fetch_tile_data_low := ppu.vram (fetch_tile_address - 0x8000),
               fetcher_step := 2 }
  else if ppu.fetcher_step = 2 then
    { ppu with fetch_tile_data_hight := ppu.vram (fetch_tile_address + 1 - 0x8000),
               fetcher_step := 3 }
  else
    let flip_x := (sprite.flags &&& 0x20) != 0
    let tile_low := if flip_x then bitrev8 ppu.fetch_tile_data_low else ppu.fetch_tile_data_low
    let tile_hight :=
      if flip_x then bitrev8 ppu.fetch_tile_data_hight else ppu.fetch_tile_data_hight
    let cut_off := if sprite.sx < 8 then 8 - sprite.sx else 0
    { ppu with
        sprite_fifo := ppu.sprite_fifo.push_sprite tile_low tile_hight cut_off
          ((sprite.flags &&& 0x10) != 0) ((sprite.flags &&& 0x80) != 0),
        fetcher_step := 0, sprite_fetching := false }

/-- The `fetch_tile_address` closure of the background arm (`ppu.rs:958-974`):
apply the 8800 addressing method when LCDC bit 4 is clear, then add the row
offset within the tile. -/
def bgFetchTileAddress (ppu : Ppu) (is_in_window : Bool) (ly : Nat) : Nat :=
  let tile := ppu.fetch_tile_number
  let tile :=
    if ppu.lcdc &&& 0x10 = 0 then
      if tile + 0x100 ≥ 0x180 then tile + 0x100 - 0x100 else tile + 0x100
    else tile
  let address := tile * 0x10 + 0x8000
  let offset :=
    if is_in_window then 2 * (ppu.wyc % 8)
    else 2 * (((ly + ppu.scy) % 256) % 8)
  address + offset

/-- The background/window arm of `tick_lcd_fifo` (`ppu.rs:957-1039`). -/
def bgFetchStep (ppu : Ppu) (ly : Nat) (is_in_window : Bool) : Ppu :=
  if ppu.fetcher_step = 0 then
    let tile_map :=
      if is_in_window = false then
        if (ppu.lcdc &&& 0x08) != 0 then 0x9C00 else 0x9800
      else
        if (ppu.lcdc &&& 0x40) != 0 then 0x9C00 else 0x9800
    let tx := if is_in_window then ppu.fetcher_x else (ppu.fetcher_x + ppu.scx / 8) &&& 0x1F
    let ty := if is_in_window then ppu.wyc / 8 else ((ly + ppu.scy) % 256) / 8
    let offset := (32 * ty + tx) &&& 0x03FF
    { ppu with fetch_tile_number := ppu.vram (tile_map + offset - 0x8000), fetcher_step := 1 }
  else if ppu.fetcher_step = 1 then
    { ppu with fetch_tile_data_low := ppu.vram (bgFetchTileAddress ppu is_in_window ly - 0x8000),
               fetcher_step := 2 }
  else if ppu.fetcher_step = 2 then
    let ppu := { ppu with
      fetch_tile_data_hight := ppu.vram (bgFetchTileAddress ppu is_in_window ly + 1 - 0x8000) }
    if ppu.fetcher_skipped_first_push = false then
      { ppu with fetcher_skipped_first_push := true, fetcher_step := 0 }
    else { ppu with fetcher_step := 3 }
  else
    if ppu.background_fifo.is_empty = false then { ppu with fetcher_step := 3 }
    else
      { ppu with
          background_fifo :=
            ppu.background_fifo.push_background ppu.fetch_tile_data_low ppu.fetch_tile_data_hight,
          fetcher_x := (ppu.fetcher_x + 1) % 256, fetcher_step := 0 }

/-- The mixed color of one emitted pixel (`ppu.rs:1063-1083`): the
palette-shaded background color, possibly replaced by the shaded sprite color
when a non-transparent sprite pixel without losing background priority is
queued. -/
def mixColor (ppu : Ppu) (pixel : Nat) (spritePix : Option Nat) : Nat :=
  let background_enable := (ppu.lcdc &&& 0x01) != 0
  let bcolor := if background_enable then pixel &&& 0b11 else 0
  let color := (ppu.bgp >>> (bcolor * 2)) &&& 0b11
  match spritePix with
  | none => color
  | some sprite_pixel =>
    let scolor := sprite_pixel &&& 0b11
    let background_priority := ((sprite_pixel >>> 3) &&& 0x01) != 0
    if scolor == 0 || (background_priority && bcolor != 0) then color
    else
      let palette := if (sprite_pixel >>> 4) &&& 0x1 = 1 then ppu.obp1 else ppu.obp0
      (palette >>> (scolor * 2)) &&& 0b11

/-- The background-pop part of the pixel output (`ppu.rs:1058-1088`): pop the
background FIFO; discard the pixel while `discarting > 0`, otherwise mix with
the popped sprite pixel and write to the screen. -/
def bgPopOutput (ppu : Ppu) (ly : Nat) : Ppu :=
  let popRes := ppu.background_fifo.pop_front
  match popRes.1 with
  | none => ppu
  | some pixel =>
    let ppu := { ppu with background_fifo := popRes.2 }
    if ppu.discarting > 0 then { ppu with discarting := ppu.discarting - 1 }
    else
      let i := ly * 160 + ppu.curr_x
      let popped := ppu.sprite_fifo.pop_front
      let ppu := { ppu with sprite_fifo := popped.2 }
      let color := mixColor ppu pixel popped.1
      { ppu with screen := fun j => if j = i then color else ppu.screen j,
                 curr_x := (ppu.curr_x + 1) % 256 }

/-- The pixel-output tail of `tick_lcd_fifo` (`ppu.rs:1042-1089`): the window
trigger followed by the background pop and pixel emission. -/
def pixelOutput (ppu : Ppu) (ly : Nat) : Ppu :=
  let window_enabled := (ppu.lcdc &&& 0x20) != 0
  let ppu :=
    if (ppu.is_in_window = false) ∧ window_enabled ∧ ppu.reach_window
        ∧ ppu.curr_x ≥ ppu.wx - 7 then
      { ppu with is_in_window := true, fetcher_step := 0, discarting := 0, fetcher_x := 0,
                 background_fifo := ppu.background_fifo.clear }
    else ppu
  bgPopOutput ppu ly

/-- The sprite-fetch trigger at the head of `tick_lcd_fifo`
(`ppu.rs:877-886`): when not discarding, not already fetching, sprites remain
and OBJ is enabled, and the sprite at the back of the buffer has
`sx ≤ curr_x + 8`, pop it and start a sprite fetch. -/
def spriteTrigger (ppu : Ppu) : Ppu :=
  let sprite_enable := (ppu.lcdc &&& 0x02) != 0
  if ppu.discarting == 0 && !ppu.sprite_fetching && ppu.sprite_buffer_len != 0
      && sprite_enable then
    let sprite := ppu.sprite_buffer.getD (ppu.sprite_buffer_len - 1) (Inhabited.default)
    if sprite.sx ≤ ppu.curr_x + 8 then
      { ppu with sprite_fetching := true, sprite_buffer_len := ppu.sprite_buffer_len - 1,
                 fetcher_step := 0, fetcher_cycle := false }
    else ppu
  else ppu

/-- `tick_lcd_fifo` (`ppu.rs:874-1090`): one dot of the mode-3 pixel pipeline.
First the sprite-fetch trigger, then the two-dot fetcher, then (when no sprite
fetch is in flight) the window trigger and pixel output. -/
def tick_lcd_fifo (ppu : Ppu) (ly : Nat) : Ppu :=
  let is_in_window := ppu.is_in_window
  let ppu := spriteTrigger ppu
  let ppu := { ppu with fetcher_cycle := !ppu.fetcher_cycle }
  let ppu :=
    if ppu.fetcher_cycle then
      if ppu.sprite_fetching then spriteFetchStep ppu ly else bgFetchStep ppu ly is_in_window
    else ppu
  if ppu.sprite_fetching = false then pixelOutput ppu ly else ppu

/-! ## The PPU macro state machine (`ppu.rs:585-834`) -/

/-- One dispatch of the `match state` inside the catch-up loop of
`Ppu::update`.  Takes and returns the pair of accumulated v-blank and STAT
interrupt flags.  The invalid-state arm (`unreachable!()`) has no defined
result and is reported as `none` by `Ppu.updateLoop`. -/
def Ppu.updateState (p : Ppu) (vb st : Bool) : Option (Ppu × Bool × Bool) :=
  match p.state with
  | 0 =>
    let p := { p with ly := 0 }
    let p := p.set_stat_mode 0
    some ({ p with reach_window := false, next_clock_count := p.next_clock_count + 1,
                   state := 1 }, vb, st)
  | 1 =>
    some ({ p with line_start_clock_count := wsub64 p.next_clock_count 8, wyc := 0,
                   next_clock_count := p.next_clock_count + 76, state := 2 }, vb, st)
  | 2 =>
    some ({ p with next_clock_count := p.next_clock_count + 2, state := 3 }, vb, st)
  | 3 =>
    let p := p.set_stat_mode 3
    some ({ p with next_clock_count := p.next_clock_count + 2, state := 4 }, vb, st)
  | 4 =>
    some ({ p with next_clock_count := p.next_clock_count + 3, state := 5 }, vb, st)
  | 5 =>
    some ({ p with state := 10 }, vb, st)
  | 6 =>
    some ({ p with line_start_clock_count := p.next_clock_count,
                   next_clock_count := p.next_clock_count + 3, state := 7 }, vb, st)
  | 7 =>
    let p :=
      if p.ly = 0 then ({ p with ly_for_compare := 0 }).set_stat_mode 0
      else ({ p with ly_for_compare := 0xFF }).set_stat_mode 2
    let r := p.update_stat
    some ({ r.1 with next_clock_count := r.1.next_clock_count + 1, state := 8 },
      vb, st || r.2)
  | 8 =>
    let p := p.set_stat_mode 2
    let p := { p with ly_for_compare := p.ly }
    let r := p.update_stat
    let p := r.1.search_objects
    some ({ p with curr_x := 0, next_clock_count := p.next_clock_count + 80, state := 9 },
      vb, st || r.2)
  | 9 =>
    let p := p.set_stat_mode 3
    let r := p.update_stat
    some ({ r.1 with state := 10 }, vb, st || r.2)
  | 10 =>
    let p := { p with background_fifo := p.background_fifo.clear,
                      sprite_fifo := p.sprite_fifo.clear,
                      fetcher_step := 0, fetcher_skipped_first_push := false,
                      sprite_fetching := false, fetcher_cycle := false, fetcher_x := 0 }
    let p := if p.wy = p.ly then { p with reach_window := true } else p
    some ({ p with is_in_window := false, discarting := p.scx % 8, state := 24 }, vb, st)
  | 24 =>
    let p := tick_lcd_fifo p p.ly
    let p := { p with next_clock_count := p.next_clock_count + 1 }
    some (if p.curr_x = 160 then { p with state := 11 } else p, vb, st)
  | 11 =>
    let p := p.set_stat_mode 0
    let p := if p.is_in_window then { p with wyc := (p.wyc + 1) % 256 } else p
    some ({ p with next_clock_count := p.next_clock_count + 1, state := 12 }, vb, st)
  | 12 =>
    let r := p.update_stat
    some ({ r.1 with next_clock_count := r.1.next_clock_count + 12, state := 13 },
      vb, st || r.2)
  | 13 =>
    let elapsed := wsub64 p.next_clock_count p.line_start_clock_count
    some ({ p with next_clock_count := p.next_clock_count + wsub64 (wsub64 456 elapsed) 2,
                   state := 26 }, vb, st)
  | 26 =>
    some ({ p with next_clock_count := p.next_clock_count + 2, state := 14 }, vb, st)
  | 14 =>
    let p := { p with ly := (p.ly + 1) % 256 }
    some (if p.ly = 144 then { p with state := 15 } else { p with state := 6 }, vb, st)
  | 15 =>
    if p.ly = 153 then some ({ p with state := 18 }, vb, st)
    else
      some ({ p with ly_for_compare := 0xFF,
                     next_clock_count := p.next_clock_count + 2, state := 16 }, vb, st)
  | 16 =>
    some ({ p with next_clock_count := p.next_clock_count + 2, state := 17 }, vb, st)
  | 17 =>
    let p := { p with ly_for_compare := p.ly }
    let vb2 := vb || (p.ly == 144)
    let p := if p.ly = 144 then p.set_stat_mode 1 else p
    let r := p.update_stat
    some ({ r.1 with next_clock_count := r.1.next_clock_count + (456 - 4), state := 25 },
      vb2, st || r.2)
  | 25 =>
    some ({ p with ly := (p.ly + 1) % 256, state := 15 }, vb, st)
  | 18 =>
    let p := { p with ly := 153, ly_for_compare := 0xFF }
    let r := p.update_stat
    some ({ r.1 with next_clock_count := r.1.next_clock_count + 6, state := 19 },
      vb, st || r.2)
  | 19 =>
    let p := { p with ly := 0, ly_for_compare := 153 }
    let r := p.update_stat
    some ({ r.1 with next_clock_count := r.1.next_clock_count + 2, state := 20 },
      vb, st || r.2)
  | 20 =>
    let p := { p with ly := 0 }
    let r := p.update_stat
    some ({ r.1 with next_clock_count := r.1.next_clock_count + 4, state := 21 },
      vb, st || r.2)
  | 21 =>
    let p := { p with ly_for_compare := 0 }
    let r := p.update_stat
    some ({ r.1 with next_clock_count := r.1.next_clock_count + 12, state := 22 },
      vb, st || r.2)
  | 22 =>
    some ({ p with next_clock_count := p.next_clock_count + (456 - 24), state := 23 }, vb, st)
  | 23 =>
    some ({ p with ly := 0, reach_window := false, wyc := 0, curr_x := 0, state := 6 },
      vb, st)
  | _ => none

/-- The `while ppu.next_clock_count < gb.clock_count` catch-up loop of
`Ppu::update`, bounded by `fuel` dispatches.  Returns `none` when the fuel
runs out before the PPU has caught up (or an invalid state is dispatched);
the Rust loop simply keeps running in that case, so every `some` result of
this function is a result the Rust code produces. -/
def Ppu.updateLoop (clock : Nat) : Nat → Ppu → Bool → Bool → Option (Ppu × Bool × Bool)
  | 0, p, vb, st => if p.next_clock_count < clock then none else some (p, vb, st)
  | fuel + 1, p, vb, st =>
    if p.next_clock_count < clock then
      match p.updateState vb st with
      | none => none
      | some r => Ppu.updateLoop clock fuel r.1 r.2.1 r.2.2
    else some (p, vb, st)

/-- `Ppu::update` (`ppu.rs:585-834`): when the LCD is disabled, pin
`next_clock_count` to the clock; otherwise evaluate the STAT line once and run
the catch-up loop.  (`gb.update_dma` — Modelled from the spec: DMA is
performed instantaneously by the write to 0xFF46 (§4.1), so the catch-up hook
has nothing to do.)  Returns the PPU together with the v-blank and STAT
interrupt edges. -/
def Ppu.update (clock fuel : Nat) (p : Ppu) : Option (Ppu × Bool × Bool) :=
  if p.lcdc &&& 0x80 = 0 then some ({ p with next_clock_count := clock }, false, false)
  else
    let r := p.update_stat
    Ppu.updateLoop clock fuel r.1 false r.2

/-! ## The board (`gameboy.rs:100-509`) -/

/-- Modelled from the spec: the CPU register file of §3 (`cpu.rs` is not part
of the provided sources).  `ime` encodes {Disabled, ToBeEnabled, Enabled} as
0/1/2 and `state` encodes {Running, Halt, HaltBug, Stopped} as 0/1/2/3. -/
structure Cpu where
  a : Nat
  f : Nat
  b : Nat
  c : Nat
  d : Nat
  e : Nat
  h : Nat
  l : Nat
  sp : Nat
  pc : Nat
  ime : Nat
  state : Nat
  deriving Repr, DecidableEq

/-- Modelled from the spec: `Cpu::default()` zero-initialises the register
file. -/
def Cpu.default : Cpu :=
  { a := 0, f := 0, b := 0, c := 0, d := 0, e := 0, h := 0, l := 0,
    sp := 0, pc := 0, ime := 0, state := 0 }

/-- Length of the cartridge's save-state blob.  Modelled from the spec: the
cartridge serialises mapper state and RAM (§4.5/§4.6); its exact layout is
unspecified, so it is modelled as an opaque byte blob of this fixed length. -/
def cartSavLen : Nat := 4

/-- The `GameBoy` struct (`gameboy.rs:100-130`).  Differences forced by the
missing sources, each modelled from the spec: the cartridge is an opaque
deterministic byte source `cartridge : Nat → Nat` for reads (mapper writes are
unspecified and leave it unchanged) plus an opaque save blob `cartridgeSav`;
the sound controller is opaque except for its `last_clock`
(`sound_last_clock`), which is what the save-state codec checks; the serial
and v-blank host callbacks are outside the core and are not modelled. -/
structure GameBoy where
  cpu : Cpu
  cartridge : Nat → Nat
  cartridgeSav : Nat → Nat
  wram : Nat → Nat
  hram : Nat → Nat
  boot_rom : Option (Nat → Nat)
  boot_rom_active : Bool
  clock_count : Nat
  timer : Timer
  sound_last_clock : Nat
  ppu : Ppu
  joypad_io : Nat
  joypad : Nat
  serial_data : Nat
  serial_control : Nat
  interrupt_flag : Nat
  interrupt_enabled : Nat

/-- Modelled from the spec: `SoundController::update(clock)` catches the sound
controller up to the given clock (§5), so its `last_clock` becomes `clock`. -/
def soundUpdate (clock : Nat) (_sound_last_clock : Nat) : Nat := clock

/-- `GameBoy::tick` (`gameboy.rs:388-404`): advance the clock by `count`
T-cycles, update the timer (setting IF bit 2 on overflow), update the PPU, and
set IF bits 0 and 1 on the v-blank and STAT edges it reports.  The v-blank
host callback is outside the core and is not modelled.  `fuel` bounds the
PPU catch-up loop; `none` means the embedding ran out of fuel. -/
def GameBoy.tick (fuel : Nat) (gb : GameBoy) (count : Nat) : Option GameBoy :=
  let clock := gb.clock_count + count
  let tr := gb.timer.update clock
  let gb := { gb with clock_count := clock, timer := tr.1,
                      interrupt_flag :=
                        if tr.2 then gb.interrupt_flag ||| (1 <<< 2) else gb.interrupt_flag }
  match Ppu.update clock fuel gb.ppu with
  | none => none
  | some r =>
    let gb := { gb with ppu := r.1 }
    let gb := if r.2.1 then { gb with interrupt_flag := gb.interrupt_flag ||| (1 <<< 0) } else gb
    let gb := if r.2.2 then { gb with interrupt_flag := gb.interrupt_flag ||| (1 <<< 1) } else gb
    some gb

/-- `Ppu::write` (`ppu.rs:484-522`): catch the PPU up to the current clock,
then store the register; a write to LCDC handles the LCD enable/disable
edge. -/
def Ppu.writeReg (fuel : Nat) (gb : GameBoy) (address value : Nat) : Option GameBoy :=
  match Ppu.update gb.clock_count fuel gb.ppu with
  | none => none
  | some r =>
    let this := r.1
    if address = 0x40 then
      let this :=
        if (value &&& 0x80) ≠ (this.lcdc &&& 0x80) then
          if value &&& 0x80 = 0 then
            { this with ly := 0, line_start_clock_count := 0,
                        stat := this.stat &&& 0xFC, state := 0 }
          else
            { this with ly_for_compare := 0, next_clock_count := gb.clock_count }
        else this
      some { gb with ppu := { this with lcdc := value } }
    else if address = 0x41 then
      some { gb with ppu := { this with stat := 0x80 ||| (value &&& 0xF8) ||| (this.stat &&& 0b111) } }
    else if address = 0x42 then some { gb with ppu := { this with scy := value } }
    else if address = 0x43 then some { gb with ppu := { this with scx := value } }
    else if address = 0x44 then some { gb with ppu := this }
    else if address = 0x45 then some { gb with ppu := { this with lyc := value } }
    else if address = 0x47 then some { gb with ppu := { this with bgp := value } }
    else if address = 0x48 then some { gb with ppu := { this with obp0 := value } }
    else if address = 0x49 then some { gb with ppu := { this with obp1 := value } }
    else if address = 0x4A then some { gb with ppu := { this with wy := value } }
    else if address = 0x4B then some { gb with ppu := { this with wx := value } }
    else none

/-- `Ppu::read` (`ppu.rs:524-550`): STAT and LY reads catch the PPU up to the
current clock first; every other register is read directly. -/
def Ppu.readReg (fuel : Nat) (gb : GameBoy) (address : Nat) : Option (Nat × GameBoy) :=
  let this := gb.ppu
  if address = 0x40 then some (this.lcdc, gb)
  else if address = 0x41 then
    match Ppu.update gb.clock_count fuel gb.ppu with
    | none => none
    | some r => some (r.1.stat ||| 0x80, { gb with ppu := r.1 })
  else if address = 0x42 then some (this.scy, gb)
  else if address = 0x43 then some (this.scx, gb)
  else if address = 0x44 then
    match Ppu.update gb.clock_count fuel gb.ppu with
    | none => none
    | some r => some (r.1.ly, { gb with ppu := r.1 })
  else if address = 0x45 then some (this.lyc, gb)
  else if address = 0x47 then some (this.bgp, gb)
  else if address = 0x48 then some (this.obp0, gb)
  else if address = 0x49 then some (this.obp1, gb)
  else if address = 0x4A then some (this.wy, gb)
  else if address = 0x4B then some (this.wx, gb)
  else none

/-- `GameBoy::read_io` (`gameboy.rs:465-508`).  Sound-register reads are
modelled from the spec as opaque (the controller's mixing state is out of
scope, §1); they return 0xFF here and no claim depends on them. -/
def GameBoy.read_io (fuel : Nat) (gb : GameBoy) (address : Nat) : Option (Nat × GameBoy) :=
  if address = 0x00 then
    let v := gb.joypad_io
    let r := (v &&& 0x30) ||| 0b11000000
    let r := if (v &&& 0x10) != 0 then r ||| ((gb.joypad &&& 0xF0) >>> 4) else r
    let r := if (v &&& 0x20) != 0 then r ||| (gb.joypad &&& 0x0F) else r
    some (r, gb)
  else if address = 0x01 then some (gb.serial_data, gb)
  else if address = 0x02 then some (gb.serial_control, gb)
  else if address = 0x03 then some (0xFF, gb)
  else if address = 0x04 then some (gb.timer.read_div, gb)
  else if address = 0x05 then some (gb.timer.tima, gb)
  else if address = 0x06 then some (gb.timer.tma, gb)
  else if address = 0x07 then some (gb.timer.tac, gb)
  else if address ≤ 0x0E then some (0xFF, gb)
  else if address = 0x0F then some (gb.interrupt_flag, gb)
  else if address ≤ 0x14 ∨ (0x16 ≤ address ∧ address ≤ 0x1E)
      ∨ (0x20 ≤ address ∧ address ≤ 0x26) ∨ (0x30 ≤ address ∧ address ≤ 0x3F) then
    some (0xFF, gb)
  else if address = 0x15 ∨ address = 0x1F ∨ (0x27 ≤ address ∧ address ≤ 0x2F) then
    some (0xFF, gb)
  else if 0x40 ≤ address ∧ address ≤ 0x45 then Ppu.readReg fuel gb address
  else if address = 0x46 then some (0xFF, gb)
  else if 0x47 ≤ address ∧ address ≤ 0x4B then Ppu.readReg fuel gb address
  else if address ≤ 0x7F then some (0xFF, gb)
  else if address ≤ 0xFE then some (gb.hram (address - 0x80), gb)
  else some (gb.interrupt_enabled, gb)

/-- `GameBoy::read` (`gameboy.rs:322-356`): resolve the address through the
memory map.  The ECHO range is rewritten down by 0x2000; the boot ROM shadows
the first 256 bytes while active (reading it without a boot ROM is a panic in
the source, `none` here); VRAM and OAM are read directly from the PPU without
catching it up. -/
def GameBoy.read (fuel : Nat) (gb : GameBoy) (address : Nat) : Option (Nat × GameBoy) :=
  if gb.boot_rom_active ∧ address < 0x100 then
    match gb.boot_rom with
    | some rom => some (rom address, gb)
    | none => none
  else
    let address := if 0xE000 ≤ address ∧ address ≤ 0xFDFF then address - 0x2000 else address
    if address ≤ 0x7FFF then some (gb.cartridge address, gb)
    else if address ≤ 0x9FFF then some (gb.ppu.vram (address - 0x8000), gb)
    else if address ≤ 0xBFFF then some (gb.cartridge address, gb)
    else if address ≤ 0xDFFF then some (gb.wram (address - 0xC000), gb)
    else if address ≤ 0xFE9F then some (gb.ppu.oam (address - 0xFE00), gb)
    else if address ≤ 0xFEFF then some (0xFF, gb)
    else if address ≤ 0xFF7F then gb.read_io fuel (address % 256)
    else if address ≤ 0xFFFE then some (gb.hram (address - 0xFF80), gb)
    else gb.read_io fuel (address % 256)

/-- The pairs `(i, j)` traversed by the DMA copy loop of `write_io`
(`gameboy.rs:446`): `(0xFE00..=0xFE9F).zip(start..start + 0x9F)`.  The first
range has 160 elements, the second only 0x9F = 159, and `zip` stops at the
shorter one. -/
def dmaPairs (start : Nat) : List (Nat × Nat) :=
  List.zip (List.range' 0xFE00 160) (List.range' start 0x9F)

/-- The body of the DMA copy loop (`gameboy.rs:446-449`):
`let value = self.read(j); self.write(i, value)`, with the recursive `write`
passed as the parameter `wr`. -/
def dmaStep (rf : Nat) (wr : GameBoy → Nat → Nat → Option GameBoy)
    (g : GameBoy) (ij : Nat × Nat) : Option GameBoy := do
  let r ← GameBoy.read rf g ij.2
  wr r.2 ij.1 r.1

/-- `GameBoy::write` and `GameBoy::write_io` (`gameboy.rs:358-385, 416-463`),
combined into one fuel-indexed function (`tag = false` is `write`, `tag =
true` is `write_io`) because the DMA arm of `write_io` calls back into
`write`.  Mapper writes (cartridge ROM/RAM regions) are modelled from the
spec as leaving the opaque cartridge unchanged; the serial host callback is
not modelled. -/
def GameBoy.writeAux : Nat → Bool → GameBoy → Nat → Nat → Option GameBoy
  | 0, _, _, _, _ => none
  | fuel + 1, false, gb, address, value =>
    let address := if 0xE000 ≤ address ∧ address ≤ 0xFDFF then address - 0x2000 else address
    if address ≤ 0x7FFF then some gb
    else if address ≤ 0x9FFF then
      some { gb with ppu := { gb.ppu with
        vram := fun j => if j = address - 0x8000 then value % 256 else gb.ppu.vram j } }
    else if address ≤ 0xBFFF then some gb
    else if address ≤ 0xDFFF then
      some { gb with wram := fun j => if j = address - 0xC000 then value % 256 else gb.wram j }
    else if address ≤ 0xFE9F then
      some { gb with ppu := { gb.ppu with
        oam := fun j => if j = address - 0xFE00 then value % 256 else gb.ppu.oam j } }
    else if address ≤ 0xFEFF then some gb
    else if address ≤ 0xFF7F then GameBoy.writeAux fuel true gb (address % 256) value
    else if address ≤ 0xFFFE then
      some { gb with hram := fun j => if j = address - 0xFF80 then value % 256 else gb.hram j }
    else GameBoy.writeAux fuel true gb (address % 256) value
  | fuel + 1, true, gb, address, value =>
    if address = 0x00 then
      some { gb with joypad_io := 0b11001111 ||| (value &&& 0x30) }
    else if address = 0x01 then some { gb with serial_data := value % 256 }
    else if address = 0x02 then some { gb with serial_control := value % 256 }
    else if address = 0x03 then some gb
    else if address = 0x04 then some { gb with timer := gb.timer.write_div value }
    else if address = 0x05 then some { gb with timer := gb.timer.write_tima value }
    else if address = 0x06 then some { gb with timer := gb.timer.write_tma value }
    else if address = 0x07 then some { gb with timer := gb.timer.write_tac value }
    else if address ≤ 0x0E then some gb
    else if address = 0x0F then some { gb with interrupt_flag := value % 256 }
    else if address ≤ 0x14 ∨ (0x16 ≤ address ∧ address ≤ 0x1E)
        ∨ (0x20 ≤ address ∧ address ≤ 0x26) ∨ (0x30 ≤ address ∧ address ≤ 0x3F) then
      some gb
    else if address = 0x15 ∨ address = 0x1F ∨ (0x27 ≤ address ∧ address ≤ 0x2F) then
      some gb
    else if 0x40 ≤ address ∧ address ≤ 0x45 then Ppu.writeReg (fuel + 1) gb address (value % 256)
    else if address = 0x46 then
      let start := ((value % 256) <<< 8)
      (dmaPairs start).foldlM
        (dmaStep (fuel + 1) (fun g i v => GameBoy.writeAux fuel false g i v)) gb
    else if 0x47 ≤ address ∧ address ≤ 0x4B then Ppu.writeReg (fuel + 1) gb address (value % 256)
    else if address ≤ 0x4F then some gb
    else if address = 0x50 then
      if value &&& 0b1 ≠ 0 then
        some { gb with boot_rom_active := false, cpu := { gb.cpu with pc := 0x100 } }
      else some gb
    else if address ≤ 0x7F then some gb
    else if address ≤ 0xFE then
      some { gb with hram := fun j => if j = address - 0x80 then value % 256 else gb.hram j }
    else some { gb with interrupt_enabled := value % 256 }

/-- `GameBoy::write` (one fuel unit is consumed by the dispatch into
`write_io`, so callers pass `fuel + 1` per nesting level). -/
def GameBoy.write (fuel : Nat) (gb : GameBoy) (address value : Nat) : Option GameBoy :=
  GameBoy.writeAux fuel false gb address value

/-- `GameBoy::write_io`. -/
def GameBoy.write_io (fuel : Nat) (gb : GameBoy) (address value : Nat) : Option GameBoy :=
  GameBoy.writeAux fuel true gb address value

/-! ## Save-state codec

The `SaveState` trait implementations for `Timer`, `PixelFifo`, `Sprite`,
`Ppu` and `GameBoy` are in the provided sources and are embedded field by
field in their exact order.  The primitive codec (`save_state.rs`) and the
`Cpu`, `Cartridge` and `SoundController` serialisers are not in the provided
sources; they are modelled from the spec (§4.6): byte-serial, little-endian,
no version header, no padding, each primitive at its natural width, fixed-size
arrays dumped as raw bytes, and up-to-8 bools packed LSB-first into one
byte. -/

/-- `LoadStateError` (the variants reachable from `GameBoy::load_state`). -/
inductive LErr where
  | unexpectedEof : LErr
  | invalidPpuMode : Nat → LErr
  | soundControllerDesync : Nat → Nat → LErr
  deriving Repr, DecidableEq

/-- Modelled from the spec: serialise a `u8`. -/
def sv8 (v : Nat) : List Nat := [v % 256]

/-- Modelled from the spec: serialise a `u16` little-endian. -/
def sv16 (v : Nat) : List Nat := [v % 256, (v >>> 8) % 256]

/-- Modelled from the spec: serialise a `u64` little-endian. -/
def sv64 (v : Nat) : List Nat := (List.range 8).map fun i => (v >>> (8 * i)) % 256

/-- Modelled from the spec: dump a fixed-size byte array. -/
def svBytes (n : Nat) (f : Nat → Nat) : List Nat := (List.range n).map fun i => f i % 256

/-- Modelled from the spec: pack a list of up to 8 bools into one byte,
LSB-first. -/
def packBools (bs : List Bool) : Nat := bs.foldr (fun b acc => 2 * acc + cond b 1 0) 0

/-- Modelled from the spec: serialise a bool-pack. -/
def svBools (bs : List Bool) : List Nat := [packBools bs]

/-- The load monad: a byte stream consumed from the front, failing with a
`LoadStateError`. -/
abbrev LoadM (α : Type) := StateT (List Nat) (Except LErr) α

/-- Modelled from the spec: read one byte. -/
def ld8 : LoadM Nat := fun s =>
  match s with
  | [] => Except.error LErr.unexpectedEof
  | b :: rest => Except.ok (b, rest)

/-- Modelled from the spec: read `n` raw bytes. -/
def ldBytes : (n : Nat) → LoadM (List Nat)
  | 0 => pure []
  | n + 1 => do
    let b ← ld8
    let r ← ldBytes n
    pure (b :: r)

/-- Little-endian recomposition of a byte list. -/
def fromLE (bs : List Nat) : Nat := bs.foldr (fun b acc => b + 256 * acc) 0

/-- Modelled from the spec: read a little-endian `u16`. -/
def ld16 : LoadM Nat := do
  let bs ← ldBytes 2
  pure (fromLE bs)

/-- Modelled from the spec: read a little-endian `u64`. -/
def ld64 : LoadM Nat := do
  let bs ← ldBytes 8
  pure (fromLE bs)

/-- Modelled from the spec: read a bool-pack of `n` bools (LSB-first). -/
def ldBools (n : Nat) : LoadM (List Bool) := do
  let b ← ld8
  pure ((List.range n).map fun i => ((b >>> i) &&& 1) == 1)

/-- `Timer::save_state` (`gameboy.rs:20-28`). -/
def svTimer (t : Timer) : List Nat :=
  sv16 t.div ++ sv8 t.tima ++ sv8 t.tma ++ sv8 t.tac
    ++ svBools [t.last_counter_bit] ++ sv64 t.last_clock_count

/-- `Timer::load_state` (`gameboy.rs:30-38`). -/
def ldTimer : LoadM Timer := do
  let div ← ld16
  let tima ← ld8
  let tma ← ld8
  let tac ← ld8
  let bs ← ldBools 1
  let lcc ← ld64
  pure { div := div, tima := tima, tma := tma, tac := tac,
         last_counter_bit := bs.getD 0 false, last_clock_count := lcc }

/-- `PixelFifo::save_state` (`ppu.rs:14-21`). -/
def svFifo (f : PixelFifo) : List Nat := svBytes 16 f.queue ++ sv8 f.head ++ sv8 f.tail

/-- `PixelFifo::load_state` (`ppu.rs:23-29`). -/
def ldFifo : LoadM PixelFifo := do
  let q ← ldBytes 16
  let head ← ld8
  let tail ← ld8
  pure { queue := fun i => q.getD i 0, head := head, tail := tail }

/-- `Sprite::save_state` (`ppu.rs:103-106`). -/
def svSprite (s : Sprite) : List Nat :=
  [s.sx % 256, s.sy % 256, s.tile % 256, s.flags % 256]

/-- `Sprite::load_state` (`ppu.rs:108-119`). -/
def ldSprite : LoadM Sprite := do
  let bs ← ldBytes 4
  pure { sx := bs.getD 0 0, sy := bs.getD 1 0, tile := bs.getD 2 0, flags := bs.getD 3 0 }

/-- The `[Sprite; 10]` sprite buffer, dumped entry by entry. -/
def svSpriteBuffer (buf : List Sprite) : List Nat :=
  ((List.range 10).map fun i => svSprite (buf.getD i (Inhabited.default))).flatten

/-- Load the `[Sprite; 10]` sprite buffer. -/
def ldSpriteBuffer : (n : Nat) → LoadM (List Sprite)
  | 0 => pure []
  | n + 1 => do
    let s ← ldSprite
    let r ← ldSpriteBuffer n
    pure (s :: r)

/-- `Ppu::save_state` (`ppu.rs:282-329`), field for field in source order. -/
def svPpu (p : Ppu) : List Nat :=
  svBytes 0x2000 p.vram ++ svBytes 0xA0 p.oam ++ svBytes (144 * 160) p.screen
    ++ svSpriteBuffer p.sprite_buffer ++ sv8 p.sprite_buffer_len ++ sv8 p.wyc
    ++ sv8 p.lcdc ++ sv8 p.stat ++ sv8 p.scy ++ sv8 p.scx ++ sv8 p.ly ++ sv8 p.lyc
    ++ sv8 p.bgp ++ sv8 p.obp0 ++ sv8 p.obp1 ++ sv8 p.wy ++ sv8 p.wx
    ++ sv8 p.state ++ sv8 p.ly_for_compare
    ++ sv64 p.next_clock_count ++ sv64 p.line_start_clock_count
    ++ svFifo p.background_fifo ++ svFifo p.sprite_fifo
    ++ sv8 p.fetcher_step ++ sv8 p.fetcher_x ++ sv8 p.fetch_tile_number
    ++ sv8 p.fetch_tile_data_low ++ sv8 p.fetch_tile_data_hight
    ++ svBools [p.reach_window, p.is_in_window, p.fetcher_skipped_first_push,
                p.sprite_fetching, p.fetcher_cycle, p.stat_signal]
    ++ sv8 p.curr_x ++ sv8 p.discarting

/-- `Ppu::load_state` (`ppu.rs:331-378`). -/
def ldPpu (p : Ppu) : LoadM Ppu := do
  let vram ← ldBytes 0x2000
  let oam ← ldBytes 0xA0
  let screen ← ldBytes (144 * 160)
  let buf ← ldSpriteBuffer 10
  let sprite_buffer_len ← ld8
  let wyc ← ld8
  let lcdc ← ld8
  let stat ← ld8
  let scy ← ld8
  let scx ← ld8
  let ly ← ld8
  let lyc ← ld8
  let bgp ← ld8
  let obp0 ← ld8
  let obp1 ← ld8
  let wy ← ld8
  let wx ← ld8
  let state ← ld8
  let ly_for_compare ← ld8
  let next_clock_count ← ld64
  let line_start_clock_count ← ld64
  let background_fifo ← ldFifo
  let sprite_fifo ← ldFifo
  let fetcher_step ← ld8
  let fetcher_x ← ld8
  let fetch_tile_number ← ld8
  let fetch_tile_data_low ← ld8
  let fetch_tile_data_hight ← ld8
  let bs ← ldBools 6
  let curr_x ← ld8
  let discarting ← ld8
  pure { p with
    vram := fun i => vram.getD i 0, oam := fun i => oam.getD i 0,
    screen := fun i => screen.getD i 0,
    sprite_buffer := buf, sprite_buffer_len := sprite_buffer_len, wyc := wyc,
    lcdc := lcdc, stat := stat, scy := scy, scx := scx, ly := ly, lyc := lyc,
    bgp := bgp, obp0 := obp0, obp1 := obp1, wy := wy, wx := wx, state := state,
    ly_for_compare := ly_for_compare, next_clock_count := next_clock_count,
    line_start_clock_count := line_start_clock_count,
    background_fifo := background_fifo, sprite_fifo := sprite_fifo,
    fetcher_step := fetcher_step, fetcher_x := fetcher_x,
    fetch_tile_number := fetch_tile_number, fetch_tile_data_low := fetch_tile_data_low,
    fetch_tile_data_hight := fetch_tile_data_hight,
    reach_window := bs.getD 0 false, is_in_window := bs.getD 1 false,
    fetcher_skipped_first_push := bs.getD 2 false, sprite_fetching := bs.getD 3 false,
    fetcher_cycle := bs.getD 4 false, stat_signal := bs.getD 5 false,
    curr_x := curr_x, discarting := discarting }

/-- Modelled from the spec: the CPU serialises its register file in the field
order declared in §3. -/
def svCpu (c : Cpu) : List Nat :=
  sv8 c.a ++ sv8 c.f ++ sv8 c.b ++ sv8 c.c ++ sv8 c.d ++ sv8 c.e ++ sv8 c.h ++ sv8 c.l
    ++ sv16 c.sp ++ sv16 c.pc ++ sv8 c.ime ++ sv8 c.state

/-- Modelled from the spec: load the CPU register file. -/
def ldCpu : LoadM Cpu := do
  let a ← ld8
  let f ← ld8
  let b ← ld8
  let c ← ld8
  let d ← ld8
  let e ← ld8
  let h ← ld8
  let l ← ld8
  let sp ← ld16
  let pc ← ld16
  let ime ← ld8
  let state ← ld8
  pure { a := a, f := f, b := b, c := c, d := d, e := e, h := h, l := l,
         sp := sp, pc := pc, ime := ime, state := state }

/-- Modelled from the spec: the cartridge's save blob (mapper state and RAM,
layout unspecified) as `cartSavLen` raw bytes. -/
def svCart (f : Nat → Nat) : List Nat := svBytes cartSavLen f

/-- Modelled from the spec: load the cartridge's save blob. -/
def ldCart : LoadM (Nat → Nat) := do
  let bs ← ldBytes cartSavLen
  pure fun i => bs.getD i 0

/-- `GameBoy::save_state` (`gameboy.rs:176-197`), field for field in source
order; the sound controller is caught up to `clock_count` before being
serialised, and (modelled from the spec) serialises as its `last_clock`. -/
def GameBoy.save_state (gb : GameBoy) : List Nat :=
  svCpu gb.cpu ++ svCart gb.cartridgeSav ++ svBytes 0x2000 gb.wram ++ svBytes 0x7F gb.hram
    ++ svBools [gb.boot_rom_active] ++ sv64 gb.clock_count ++ svTimer gb.timer
    ++ sv64 (soundUpdate gb.clock_count gb.sound_last_clock)
    ++ svPpu gb.ppu ++ sv8 gb.joypad ++ sv8 gb.joypad_io

/-- The monadic body of `GameBoy::load_state` (`gameboy.rs:199-225`),
including the sound-controller desync check. -/
def ldGameBoy (gb : GameBoy) : LoadM GameBoy := do
  let cpu ← ldCpu
  let cart ← ldCart
  let wram ← ldBytes 0x2000
  let hram ← ldBytes 0x7F
  let bs ← ldBools 1
  let clock_count ← ld64
  let timer ← ldTimer
  let sound_last_clock ← ld64
  if sound_last_clock ≠ clock_count then
    throw (LErr.soundControllerDesync sound_last_clock clock_count)
  let ppu ← ldPpu gb.ppu
  let joypad ← ld8
  let joypad_io ← ld8
  pure { gb with
    cpu := cpu, cartridgeSav := cart,
    wram := fun i => wram.getD i 0, hram := fun i => hram.getD i 0,
    boot_rom_active := bs.getD 0 false, clock_count := clock_count, timer := timer,
    sound_last_clock := sound_last_clock, ppu := ppu,
    joypad := joypad, joypad_io := joypad_io }

/-- `GameBoy::load_state`: run the monadic body on a byte stream, keeping the
decoded machine and dropping the leftover stream. -/
def GameBoy.load_state (gb : GameBoy) (bytes : List Nat) : Except LErr GameBoy :=
  Except.map Prod.fst (ldGameBoy gb bytes)

/-! ## Claim-side definitions

Definitions below follow the words of the specification and of the claims; the
theorems compare them with the source-derived definitions above. -/

/-- Claim C2: whether OAM entry `i` qualifies for line `ly` — `sx > 0` and
`ly + 16 ∈ [sy, sy + height)`. -/
def qualI (oam : Nat → Nat) (ly height i : Nat) : Bool :=
  decide (oam (4 * i + 1) > 0 ∧ ly + 16 ≥ oam (4 * i) ∧ ly + 16 < oam (4 * i) + height)

/-- Claim C2: the indices of the selected sprites — the qualifying OAM entries
in address order, at most 10 of them. -/
def selIdx (oam : Nat → Nat) (ly height : Nat) : List Nat :=
  ((List.range 40).filter (qualI oam ly height)).take 10

/-- The sprite built from OAM entry `i` (`sy, sx, tile, flags` at offsets
`0..3`). -/
def mkSprite (oam : Nat → Nat) (i : Nat) : Sprite :=
  { sx := oam (4 * i + 1), sy := oam (4 * i), tile := oam (4 * i + 2),
    flags := oam (4 * i + 3) }

/-- The sort key of OAM entry `i`: the `u8` bitwise not of its x position. -/
def keyI (oam : Nat → Nat) (i : Nat) : Nat := 255 - oam (4 * i + 1) % 256

/-- Stable insertion on index lists, mirroring `insertByKey`. -/
def insertIdxKey (key : Nat → Nat) (a : Nat) : List Nat → List Nat
  | [] => [a]
  | b :: l => if key a ≤ key b then a :: b :: l else b :: insertIdxKey key a l

/-- Stable insertion sort on index lists, mirroring `sortByKey`. -/
def sortIdxKey (key : Nat → Nat) : List Nat → List Nat
  | [] => []
  | a :: l => insertIdxKey key a (sortIdxKey key l)

/-- Claim C8's reading of the joypad register: bits 6-7 are 1, bits 4-5 echo
the written select bits, and a select bit written as 0 (active-low) selects
its nibble — bit 4 the nibble `joypad & 0xF0`, bit 5 the nibble
`joypad & 0x0F`. -/
def joypadReadClaim (v joypad : Nat) : Nat :=
  let r := (v &&& 0x30) ||| 0xC0
  let r := if v &&& 0x10 = 0 then r ||| ((joypad &&& 0xF0) >>> 4) else r
  if v &&& 0x20 = 0 then r ||| (joypad &&& 0x0F) else r

/-- Amended claim C8: what the code does — a select bit written as **1** ORs
its nibble into bits 0-3 (bit 4 the nibble `joypad & 0xF0`, bit 5 the nibble
`joypad & 0x0F`); with both bits 0 the low nibble reads 0. -/
def joypadReadAmended (v joypad : Nat) : Nat :=
  let r := (v &&& 0x30) ||| 0xC0
  let r := if (v &&& 0x10) != 0 then r ||| ((joypad &&& 0xF0) >>> 4) else r
  if (v &&& 0x20) != 0 then r ||| (joypad &&& 0x0F) else r

/-! ## Normal forms produced by the save-state decoder (used by C6/C7) -/

/-- The timer produced by decoding its own serialisation. -/
def normTimer (t : Timer) : Timer :=
  { div := t.div % U16, tima := t.tima % 256, tma := t.tma % 256, tac := t.tac % 256,
    last_counter_bit := t.last_counter_bit, last_clock_count := t.last_clock_count % U64 }

/-- The pixel FIFO produced by decoding its own serialisation. -/
def normFifo (f : PixelFifo) : PixelFifo :=
  { queue := fun i => (svBytes 16 f.queue).getD i 0, head := f.head % 256,
    tail := f.tail % 256 }

/-- The sprite produced by decoding its own serialisation. -/
def normSprite (s : Sprite) : Sprite :=
  { sx := s.sx % 256, sy := s.sy % 256, tile := s.tile % 256, flags := s.flags % 256 }

/-- The sprite buffer produced by decoding its own serialisation. -/
def normSpriteBuffer (buf : List Sprite) : List Sprite :=
  (List.range 10).map fun i => normSprite (buf.getD i (Inhabited.default))

/-- The PPU produced by decoding its own serialisation. -/
def normPpu (p : Ppu) : Ppu :=
  { vram := fun i => (svBytes 0x2000 p.vram).getD i 0,
    oam := fun i => (svBytes 0xA0 p.oam).getD i 0,
    screen := fun i => (svBytes (144 * 160) p.screen).getD i 0,
    sprite_buffer := normSpriteBuffer p.sprite_buffer,
    sprite_buffer_len := p.sprite_buffer_len % 256, wyc := p.wyc % 256,
    lcdc := p.lcdc % 256, stat := p.stat % 256, scy := p.scy % 256, scx := p.scx % 256,
    ly := p.ly % 256, lyc := p.lyc % 256, bgp := p.bgp % 256, obp0 := p.obp0 % 256,
    obp1 := p.obp1 % 256, wy := p.wy % 256, wx := p.wx % 256, state := p.state % 256,
    ly_for_compare := p.ly_for_compare % 256,
    stat_signal := p.stat_signal,
    next_clock_count := p.next_clock_count % U64,
    line_start_clock_count := p.line_start_clock_count % U64,
    background_fifo := normFifo p.background_fifo,
    sprite_fifo := normFifo p.sprite_fifo,
    fetcher_step := p.fetcher_step % 256,
    fetcher_skipped_first_push := p.fetcher_skipped_first_push,
    sprite_fetching := p.sprite_fetching, fetcher_cycle := p.fetcher_cycle,
    fetcher_x := p.fetcher_x % 256, fetch_tile_number := p.fetch_tile_number % 256,
    fetch_tile_data_low := p.fetch_tile_data_low % 256,
    fetch_tile_data_hight := p.fetch_tile_data_hight % 256,
    reach_window := p.reach_window, is_in_window := p.is_in_window,
    curr_x := p.curr_x % 256, discarting := p.discarting % 256 }

/-- The CPU produced by decoding its own serialisation. -/
def normCpu (c : Cpu) : Cpu :=
  { a := c.a % 256, f := c.f % 256, b := c.b % 256, c := c.c % 256, d := c.d % 256,
    e := c.e % 256, h := c.h % 256, l := c.l % 256, sp := c.sp % U16, pc := c.pc % U16,
    ime := c.ime % 256, state := c.state % 256 }

/-- The game boy produced (into target `tgt`) by decoding the serialisation of
`gb`. -/
def normGB (tgt gb : GameBoy) : GameBoy :=
  { tgt with
    cpu := normCpu gb.cpu,
    cartridgeSav := fun i => (svCart gb.cartridgeSav).getD i 0,
    wram := fun i => (svBytes 0x2000 gb.wram).getD i 0,
    hram := fun i => (svBytes 0x7F gb.hram).getD i 0,
    boot_rom_active := gb.boot_rom_active,
    clock_count := gb.clock_count % U64,
    timer := normTimer gb.timer,
    sound_last_clock := gb.clock_count % U64,
    ppu := normPpu gb.ppu,
    joypad := gb.joypad % 256, joypad_io := gb.joypad_io % 256 }

/-! ## Concrete states used by witnesses and counterexamples -/

/-- A fully concrete base machine. -/
def gbBase : GameBoy :=
  { cpu := Cpu.default, cartridge := fun _ => 0, cartridgeSav := fun _ => 0,
    wram := fun _ => 0, hram := fun _ => 0, boot_rom := none, boot_rom_active := false,
    clock_count := 0, timer := Timer.default, sound_last_clock := 0,
    ppu := Ppu.default, joypad_io := 0xFF, joypad := 0xFF, serial_data := 0,
    serial_control := 0, interrupt_flag := 0, interrupt_enabled := 0 }

/-- C4's failing input: work RAM holding `j + 1` at offset `j`, OAM all
zero. -/
def gbDma : GameBoy := { gbBase with wram := fun j => (j + 1) % 256 }

/-- C5's counterexample state: the PPU is behind the clock. -/
def gbBehind : GameBoy := { gbBase with clock_count := 5 }

/-- C8's counterexample state: all directional inputs released, all buttons
pressed (`joypad = 0xF0`; bit = 1 means released). -/
def gbJoy : GameBoy := { gbBase with joypad := 0xF0 }

/-- C7's counterexample source state: the timer's `last_clock_count` disagrees
with `clock_count`, the sound controller's does not. -/
def gbDesync : GameBoy :=
  { gbBase with timer := { Timer.default with last_clock_count := 7 } }

/-- C1's witness timer: TAC = 0b101 (enabled, divider tap bit 3, i.e. every 16
T-cycles) with TIMA one increment away from overflow. -/
def tmW : Timer :=
  { div := 0, tima := 255, tma := 7, tac := 0b101,
    last_counter_bit := false, last_clock_count := 0 }

/-! # Theorems -/

/-! ## Bitwise helper lemmas -/

theorem and_or_right (a b c : Nat) : (a ||| b) &&& c = (a &&& c) ||| (b &&& c) := by
  rw [Nat.and_comm _ c, Nat.and_or_distrib_left, Nat.and_comm c a, Nat.and_comm c b]

theorem small_and_zero {a : Nat} (c : Nat) (ha : a < 16) (hc : c % 16 = 0) : a &&& c = 0 := by
  apply Nat.eq_of_testBit_eq
  intro i
  rw [Nat.testBit_and]
  rcases Nat.lt_or_ge i 4 with h4 | h4
  · have hcb : c.testBit i = false := by
      rw [Nat.testBit_to_div_mod]
      interval_cases i <;> simp <;> omega
    simp [hcb]
  · have hab : a.testBit i = false := by
      refine Nat.testBit_eq_false_of_lt (lt_of_lt_of_le ha ?_)
      calc (16 : Nat) = 2 ^ 4 := rfl
        _ ≤ 2 ^ i := Nat.pow_le_pow_right (by omega) h4
    simp [hab]

theorem joypad_mask (v c : Nat) (h0 : 0xCF &&& c = 0) (h1 : 0x30 &&& c = c) :
    (0xCF ||| (v &&& 0x30)) &&& c = v &&& c := by
  rw [and_or_right, h0, Nat.zero_or, Nat.and_assoc, h1]

/-! ## C1: the timer against the spec's per-T-cycle machine -/

theorem land_one_mod256 (a b : Nat) : ((a % 256) &&& b) &&& 1 = (a &&& b) &&& 1 := by
  apply Nat.eq_of_testBit_eq
  intro i
  simp only [Nat.testBit_and]
  cases i with
  | zero =>
    rw [show (256 : Nat) = 2 ^ 8 from rfl, Nat.testBit_mod_two_pow]
    simp
  | succ j =>
    have h1 : Nat.testBit 1 (j + 1) = false := by
      simp [Nat.testBit_succ]
    simp [h1]

theorem bne_zero_eq_beq_one (w : Nat) : ((w &&& 1) != 0) = ((w &&& 1) == 1) := by
  rw [Nat.and_one_is_mod]
  rcases Nat.mod_two_eq_zero_or_one w with h | h <;> rw [h] <;> rfl

/-- One iteration of the `Timer::update` loop agrees with one T-cycle of the
claim-side machine (the `as u8` cast in the source is invisible to the
single-bit counter test, and `tima + 1 ≥ 256` coincides with `tima + 1 = 256`
for a byte-valued TIMA). -/
theorem cycle_eq_specStep (t : Timer) (h : t.tima < 256) :
    (Timer.cycle t).1.specState = (timerSpecStep t.tac t.tma t.specState).1
    ∧ (Timer.cycle t).2 = (timerSpecStep t.tac t.tma t.specState).2 := by
  have hb : ((((((t.div + 1) % U16) >>> ([9, 3, 5, 7].getD (t.tac &&& 0b11) 0)) % 256)
        &&& (t.tac >>> 2)) &&& 0b1 != 0)
      = specCounterBit t.tac ((t.div + 1) % U16) := by
    unfold specCounterBit specTap
    rw [land_one_mod256]
    exact bne_zero_eq_beq_one _
  unfold Timer.cycle timerSpecStep Timer.specState
  simp only [hb]
  constructor <;>
  · repeat' split
    all_goals try rfl
    all_goals simp_all
    all_goals omega

theorem timerSpecIter_shift (tac tma : Nat) (s : TimerSpecState) (k : Nat) :
    timerSpecIter tac tma (timerSpecStep tac tma s).1 k = timerSpecIter tac tma s (k + 1) := by
  induction k with
  | zero => rfl
  | succ k ih => simp only [timerSpecIter, ih]

theorem timerSpecOverflowAt_shift (tac tma : Nat) (s : TimerSpecState) (k : Nat) :
    timerSpecOverflowAt tac tma (timerSpecStep tac tma s).1 k
      = timerSpecOverflowAt tac tma s (k + 1) := by
  unfold timerSpecOverflowAt
  rw [timerSpecIter_shift]

theorem cycle_pres (t : Timer) :
    (Timer.cycle t).1.tac = t.tac ∧ (Timer.cycle t).1.tma = t.tma
    ∧ (Timer.cycle t).1.last_clock_count = t.last_clock_count := by
  unfold Timer.cycle
  dsimp only
  repeat' split
  all_goals exact ⟨rfl, rfl, rfl⟩

theorem cycle_tima_lt (t : Timer) (h1 : t.tima < 256) (h2 : t.tma < 256) :
    (Timer.cycle t).1.tima < 256 := by
  unfold Timer.cycle
  dsimp only
  repeat' split
  all_goals simp_all
  all_goals omega

theorem exists_lt_succ_split (n : Nat) (P : Nat → Prop) :
    (∃ k, k < n + 1 ∧ P k) ↔ P 0 ∨ ∃ k, k < n ∧ P (k + 1) := by
  constructor
  · rintro ⟨k, hk, hp⟩
    cases k with
    | zero => exact Or.inl hp
    | succ j => exact Or.inr ⟨j, by omega, hp⟩
  · rintro (hp | ⟨k, hk, hp⟩)
    · exact ⟨0, by omega, hp⟩
    · exact ⟨k + 1, by omega, hp⟩

/-- The whole `Timer::update` loop, run for `n` cycles, tracks the claim-side
machine for `n` T-cycles, keeps TAC/TMA/`last_clock_count`, keeps TIMA a byte,
and reports an overflow iff some cycle of the interval overflowed. -/
theorem updateLoop_eq_specIter (n : Nat) : ∀ (t : Timer), t.tima < 256 → t.tma < 256 →
    (Timer.updateLoop t n).1.specState = timerSpecIter t.tac t.tma t.specState n
    ∧ (Timer.updateLoop t n).1.tac = t.tac
    ∧ (Timer.updateLoop t n).1.tma = t.tma
    ∧ (Timer.updateLoop t n).1.last_clock_count = t.last_clock_count
    ∧ (Timer.updateLoop t n).1.tima < 256
    ∧ ((Timer.updateLoop t n).2 = true
        ↔ ∃ k, k < n ∧ timerSpecOverflowAt t.tac t.tma t.specState k = true) := by
  induction n with
  | zero =>
    intro t h1 h2
    refine ⟨rfl, rfl, rfl, rfl, h1, ?_⟩
    simp only [Timer.updateLoop]
    constructor
    · intro h; cases h
    · rintro ⟨k, hk, -⟩; omega
  | succ n ih =>
    intro t h1 h2
    obtain ⟨hc1, hc2⟩ := cycle_eq_specStep t h1
    obtain ⟨hp1, hp2, hp3⟩ := cycle_pres t
    have hlt := cycle_tima_lt t h1 h2
    have hma : (Timer.cycle t).1.tma < 256 := hp2 ▸ h2
    obtain ⟨i1, i2, i3, i4, i5, i6⟩ := ih (Timer.cycle t).1 hlt hma
    have hloop : Timer.updateLoop t (n + 1)
        = ((Timer.updateLoop (Timer.cycle t).1 n).1,
           (Timer.cycle t).2 || (Timer.updateLoop (Timer.cycle t).1 n).2) := rfl
    rw [hloop]
    refine ⟨?_, ?_, ?_, ?_, ?_, ?_⟩
    · show (Timer.updateLoop (Timer.cycle t).1 n).1.specState = _
      rw [i1, hp1, hp2, hc1, timerSpecIter_shift]
    · exact hp1 ▸ i2
    · exact hp2 ▸ i3
    · exact hp3 ▸ i4
    · exact i5
    · show ((Timer.cycle t).2 || (Timer.updateLoop (Timer.cycle t).1 n).2) = true ↔ _
      rw [Bool.or_eq_true, hc2, i6, exists_lt_succ_split n
        (fun k => timerSpecOverflowAt t.tac t.tma t.specState k = true)]
      constructor
      · rintro (hp | ⟨k, hk, hp⟩)
        · exact Or.inl hp
        · rw [hp1, hp2, hc1, timerSpecOverflowAt_shift] at hp
          exact Or.inr ⟨k, hk, hp⟩
      · rintro (hp | ⟨k, hk, hp⟩)
        · exact Or.inl hp
        · refine Or.inr ⟨k, hk, ?_⟩
          rw [hp1, hp2, hc1, timerSpecOverflowAt_shift]
          exact hp

/-- `Board::tick` ORs bit 2 into IF whenever the timer update it performs
reports an overflow. -/
theorem tick_sets_if2 (fuel : Nat) (gb : GameBoy) (n : Nat) (gb' : GameBoy)
    (h : GameBoy.tick fuel gb n = some gb')
    (ht : (gb.timer.update (gb.clock_count + n)).2 = true) :
    gb'.interrupt_flag.testBit 2 = true := by
  unfold GameBoy.tick at h
  dsimp only at h
  rcases hu : Ppu.update (gb.clock_count + n) fuel gb.ppu with _ | r
  · rw [hu] at h
    exact absurd h (by simp)
  · rw [hu] at h
    injection h with h
    subst h
    repeat' split
    all_goals simp_all [Nat.testBit_or, show Nat.testBit 4 2 = true from rfl]

/-- C1: `Timer::update(c)` with `c ≥ last_clock_count` and byte-valued
TIMA/TMA behaves exactly as the claim's machine run for one step per T-cycle
in `[last_clock_count, c)`: the divider/TIMA/previous-counter-bit state equals
the claim-side iterate (div incremented with 16-bit wrap, counter bit
`((div >> tap[tac&3]) & (tac>>2)) & 1` with tap = {9,3,5,7}, TIMA incremented
exactly on falling edges, reloaded from TMA on overflow); TAC and TMA are
untouched; `last_clock_count` becomes `c`; `update` returns true iff some
cycle of the interval overflowed; and `Board::tick` then sets IF bit 2. -/
theorem c1_timer_update_spec (t : Timer) (c : Nat)
    (hc : t.last_clock_count ≤ c) (h1 : t.tima < 256) (h2 : t.tma < 256) :
    (Timer.update t c).1.specState
        = timerSpecIter t.tac t.tma t.specState (c - t.last_clock_count)
    ∧ (Timer.update t c).1.tac = t.tac
    ∧ (Timer.update t c).1.tma = t.tma
    ∧ (Timer.update t c).1.last_clock_count = c
    ∧ ((Timer.update t c).2 = true
        ↔ ∃ k, k < c - t.last_clock_count
            ∧ timerSpecOverflowAt t.tac t.tma t.specState k = true)
    ∧ (∀ fuel count gb gb', gb.timer = t → gb.clock_count + count = c →
        GameBoy.tick fuel gb count = some gb' → (Timer.update t c).2 = true →
        gb'.interrupt_flag.testBit 2 = true) := by
  obtain ⟨i1, i2, i3, i4, i5, i6⟩ := updateLoop_eq_specIter (c - t.last_clock_count) t h1 h2
  refine ⟨i1, i2, i3, rfl, i6, ?_⟩
  intro fuel count gb gb' hgt hcc htick hov
  subst hgt
  subst hcc
  exact tick_sets_if2 fuel gb count gb' htick hov

/-- C1 (witness): the concrete timer `tmW` run for 32 cycles; its TIMA
overflows during the interval, matching the claim-side machine. -/
theorem c1_timer_update_spec_witness :
    tmW.last_clock_count ≤ 32 ∧ tmW.tima < 256 ∧ tmW.tma < 256
    ∧ (Timer.update tmW 32).1.specState
        = timerSpecIter tmW.tac tmW.tma tmW.specState (32 - tmW.last_clock_count)
    ∧ ((Timer.update tmW 32).2 = true
        ↔ ∃ k, k < 32 - tmW.last_clock_count
            ∧ timerSpecOverflowAt tmW.tac tmW.tma tmW.specState k = true) := by
  have h := c1_timer_update_spec tmW 32 (by decide) (by decide) (by decide)
  exact ⟨by decide, by decide, by decide, h.1, h.2.2.2.2.1⟩

/-! ## C2: the OAM scan -/

/-- The collection loop of `Ppu::search_objects` appends exactly the
qualifying OAM entries of the scanned range, in address order, up to the room
left for 10 sprites. -/
theorem searchLoop_eq (oam : Nat → Nat) (ly h : Nat) :
    ∀ (n i : Nat) (acc : List Sprite), acc.length ≤ 9 →
    searchLoop oam ly h n i acc
      = acc ++ (((List.range' i n).filter (qualI oam ly h)).take (10 - acc.length)).map
          (mkSprite oam) := by
  intro n
  induction n with
  | zero => intro i acc hacc; simp [searchLoop]
  | succ n ih =>
    intro i acc hacc
    rw [List.range'_succ]
    simp only [searchLoop]
    by_cases hq : oam (4 * i + 1) > 0 ∧ ly + 16 ≥ oam (4 * i) ∧ ly + 16 < oam (4 * i) + h
    · rw [if_pos hq]
      have hqi : qualI oam ly h i = true := decide_eq_true hq
      rw [List.filter_cons_of_pos hqi]
      by_cases h10 : acc.length + 1 = 10
      · rw [if_pos (by simp; omega)]
        rw [show 10 - acc.length = 1 by omega]
        simp [mkSprite]
      · rw [if_neg (by simp; omega)]
        rw [ih (i + 1) _ (by simp; omega)]
        rw [show 10 - acc.length = (10 - (acc.length + 1)) + 1 by omega]
        simp [mkSprite, List.append_assoc]
    · rw [if_neg hq]
      have hqi : qualI oam ly h i = false := decide_eq_false hq
      rw [List.filter_cons_of_neg (by simp [hqi])]
      rw [if_neg (by omega)]
      exact ih (i + 1) acc hacc


/-- Inserting a sprite built from an index commutes with building sprites from
an index list, when the keys agree. -/
theorem insertByKey_map (key : Sprite → Nat) (key' : Nat → Nat) (f : Nat → Sprite)
    (hk : ∀ i, key (f i) = key' i) (a : Nat) :
    ∀ l : List Nat, insertByKey key (f a) (l.map f) = (insertIdxKey key' a l).map f := by
  intro l
  induction l with
  | nil => rfl
  | cons b l ih =>
    simp only [List.map_cons, insertByKey, insertIdxKey, hk]
    by_cases hle : key' a ≤ key' b
    · rw [if_pos hle, if_pos hle, List.map_cons, List.map_cons]
    · rw [if_neg hle, if_neg hle, List.map_cons, ih]

/-- The sprite sort is the index sort carried through `mkSprite`. -/
theorem sortByKey_map (key : Sprite → Nat) (key' : Nat → Nat) (f : Nat → Sprite)
    (hk : ∀ i, key (f i) = key' i) :
    ∀ l : List Nat, sortByKey key (l.map f) = (sortIdxKey key' l).map f := by
  intro l
  induction l with
  | nil => rfl
  | cons a l ih =>
    simp only [List.map_cons, sortByKey, sortIdxKey, ih]
    exact insertByKey_map key key' f hk a _

/-- Stable insertion produces a permutation of the cons. -/
theorem insertIdxKey_perm (key : Nat → Nat) (a : Nat) :
    ∀ l : List Nat, (insertIdxKey key a l).Perm (a :: l) := by
  intro l
  induction l with
  | nil => exact List.Perm.refl _
  | cons b l ih =>
    simp only [insertIdxKey]
    by_cases hle : key a ≤ key b
    · rw [if_pos hle]
    · rw [if_neg hle]
      exact (ih.cons b).trans (List.Perm.swap a b l)

/-- The stable insertion sort permutes its input. -/
theorem sortIdxKey_perm (key : Nat → Nat) :
    ∀ l : List Nat, (sortIdxKey key l).Perm l := by
  intro l
  induction l with
  | nil => exact List.Perm.refl _
  | cons a l ih =>
    exact (insertIdxKey_perm key a _).trans (ih.cons a)

/-- Inserting an index larger than every member into a lexicographically
sorted list (ascending key, descending index on ties) keeps it sorted. -/
theorem insertIdxKey_sorted (key : Nat → Nat) (a : Nat) :
    ∀ l : List Nat,
      l.Pairwise (fun x y => key x < key y ∨ (key x = key y ∧ y < x)) →
      (∀ x ∈ l, x < a) →
      (insertIdxKey key a l).Pairwise (fun x y => key x < key y ∨ (key x = key y ∧ y < x)) := by
  intro l
  induction l with
  | nil => intro _ _; exact List.pairwise_singleton _ _
  | cons b l ih =>
    intro hp hlt
    obtain ⟨hb, hl⟩ := List.pairwise_cons.mp hp
    simp only [insertIdxKey]
    by_cases hle : key a ≤ key b
    · rw [if_pos hle]
      refine List.pairwise_cons.mpr ⟨?_, hp⟩
      intro y hy
      rcases List.mem_cons.mp hy with rfl | hy
      · rcases Nat.lt_or_ge (key a) (key y) with h | h
        · exact Or.inl h
        · exact Or.inr ⟨by omega, hlt y (by simp)⟩
      · have hby := hb y hy
        have hkey : key b ≤ key y := by rcases hby with h | ⟨h, -⟩ <;> omega
        rcases Nat.lt_or_ge (key a) (key y) with h | h
        · exact Or.inl h
        · exact Or.inr ⟨by omega, hlt y (by simp [hy])⟩
    · rw [if_neg hle]
      refine List.pairwise_cons.mpr
        ⟨?_, ih hl (fun x hx => hlt x (by simp [hx]))⟩
      intro y hy
      have hy' : y = a ∨ y ∈ l := by
        have := (insertIdxKey_perm key a l).mem_iff.mp hy
        simpa using this
      rcases hy' with rfl | hy'
      · exact Or.inl (by omega)
      · exact hb y hy'

/-- Stable insertion sort of a strictly descending index list is sorted by
ascending key with ties in descending index order: read from the back, the
list yields ascending keys and, on equal keys, ascending OAM index. -/
theorem sortIdxKey_sorted (key : Nat → Nat) :
    ∀ l : List Nat, l.Pairwise (fun x y => y < x) →
      (sortIdxKey key l).Pairwise
        (fun x y => key x < key y ∨ (key x = key y ∧ y < x)) := by
  intro l
  induction l with
  | nil => intro _; exact List.Pairwise.nil
  | cons a l ih =>
    intro hp
    obtain ⟨ha, hl⟩ := List.pairwise_cons.mp hp
    refine insertIdxKey_sorted key a _ (ih hl) ?_
    intro x hx
    exact ha x ((sortIdxKey_perm key l).mem_iff.mp hx)


/-- C2: `Ppu::search_objects` selects exactly the OAM entries (scanned in
address order) with `sx > 0` and `ly + 16 ∈ [sy, sy + height)` where `height`
is 16 if LCDC bit 2 is set and 8 otherwise, keeps at most the first 10
(`sprite_buffer_len ≤ 10`), and fills the front of the buffer with those
sprites sorted stably by ascending `!sx`: the resulting index order is a
permutation of the selected indices, pairwise ascending in key `255 - sx%256`
with ties in descending OAM index — so the back of the filled slice, the
sprite consumed next during drawing, always has the lowest x position among
those remaining, ties resolved in favour of the earlier OAM index. -/
theorem c2_oam_scan (p : Ppu) :
    (p.search_objects).sprite_buffer_len ≤ 10
    ∧ (p.search_objects).sprite_buffer_len
        = (selIdx p.oam p.ly (if (p.lcdc &&& 0x04) != 0 then 16 else 8)).length
    ∧ (p.search_objects).sprite_buffer.take (p.search_objects).sprite_buffer_len
        = (sortIdxKey (keyI p.oam)
            (selIdx p.oam p.ly (if (p.lcdc &&& 0x04) != 0 then 16 else 8)).reverse).map
            (mkSprite p.oam)
    ∧ (sortIdxKey (keyI p.oam)
        (selIdx p.oam p.ly (if (p.lcdc &&& 0x04) != 0 then 16 else 8)).reverse).Perm
        (selIdx p.oam p.ly (if (p.lcdc &&& 0x04) != 0 then 16 else 8))
    ∧ (sortIdxKey (keyI p.oam)
        (selIdx p.oam p.ly (if (p.lcdc &&& 0x04) != 0 then 16 else 8)).reverse).Pairwise
        (fun a b => keyI p.oam a < keyI p.oam b
          ∨ (keyI p.oam a = keyI p.oam b ∧ b < a)) := by
  set hgt := if (p.lcdc &&& 0x04) != 0 then 16 else 8 with hh
  have hk : ∀ i, spriteKey (mkSprite p.oam i) = keyI p.oam i := fun i => rfl
  have hsel : searchLoop p.oam p.ly hgt 40 0 []
      = (selIdx p.oam p.ly hgt).map (mkSprite p.oam) := by
    rw [searchLoop_eq p.oam p.ly hgt 40 0 [] (by simp)]
    simp [selIdx, List.range_eq_range']
  have hsorted : sortByKey spriteKey (searchLoop p.oam p.ly hgt 40 0 []).reverse
      = (sortIdxKey (keyI p.oam) (selIdx p.oam p.ly hgt).reverse).map (mkSprite p.oam) := by
    rw [hsel, ← List.map_reverse]
    exact sortByKey_map spriteKey (keyI p.oam) (mkSprite p.oam) hk _
  have hperm : (sortIdxKey (keyI p.oam) (selIdx p.oam p.ly hgt).reverse).Perm
      (selIdx p.oam p.ly hgt) :=
    (sortIdxKey_perm _ _).trans (List.reverse_perm _)
  have hdesc : (selIdx p.oam p.ly hgt).reverse.Pairwise (fun x y : Nat => y < x) := by
    rw [List.pairwise_reverse]
    exact List.Pairwise.sublist
      ((List.take_sublist _ _).trans (List.filter_sublist _))
      (List.pairwise_lt_range 40)
  have hlen10 : (selIdx p.oam p.ly hgt).length ≤ 10 := by
    simp only [selIdx, List.length_take]
    exact Nat.min_le_left _ _
  have hso1 : (p.search_objects).sprite_buffer_len
      = (sortByKey spriteKey (searchLoop p.oam p.ly hgt 40 0 []).reverse).length := rfl
  have hso2 : (p.search_objects).sprite_buffer
      = sortByKey spriteKey (searchLoop p.oam p.ly hgt 40 0 []).reverse
        ++ p.sprite_buffer.drop
            (sortByKey spriteKey (searchLoop p.oam p.ly hgt 40 0 []).reverse).length := rfl
  refine ⟨?_, ?_, ?_, hperm, sortIdxKey_sorted _ _ hdesc⟩
  · rw [hso1, hsorted, List.length_map, hperm.length_eq]
    exact hlen10
  · rw [hso1, hsorted, List.length_map, hperm.length_eq]
  · rw [hso1, hso2, hsorted]
    exact List.take_left _ _

/-! ## Pixel-FIFO lemmas (C10) -/

theorem clear_wf (f : PixelFifo) : (f.clear).WF ∧ (f.clear).size = 0 := by
  refine ⟨⟨?_, ?_, ?_⟩, ?_⟩ <;> simp [PixelFifo.clear, PixelFifo.size]

theorem push_background_heads (f : PixelFifo) (lo hi : Nat) :
    (f.push_background lo hi).head = (f.head + 8) % 16
    ∧ (f.push_background lo hi).tail = f.tail := by
  rw [PixelFifo.push_background, show (List.range 8).reverse = [7, 6, 5, 4, 3, 2, 1, 0] from rfl]
  refine ⟨?_, rfl⟩
  simp [List.foldl, PixelFifo.push1]

theorem push_background_empty_wf (f : PixelFifo) (lo hi : Nat)
    (hwf : f.WF) (hemp : f.size = 0) :
    (f.push_background lo hi).WF ∧ (f.push_background lo hi).size = 8
    ∧ (f.push_background lo hi).head ≠ (f.push_background lo hi).tail := by
  obtain ⟨h16, t16, hs⟩ := hwf
  obtain ⟨hh, ht⟩ := push_background_heads f lo hi
  unfold PixelFifo.WF PixelFifo.size at *
  rw [hh, ht]
  omega

theorem overwriteLoop_snd (pix : Nat → Nat) (head : Nat) :
    ∀ (x : Nat) (q : Nat → Nat) (cursor : Nat), cursor < 16 → head < 16 →
    (overwriteLoop pix head q cursor x).2 = x - min x ((head + 16 - cursor) % 16) := by
  intro x
  induction x with
  | zero => intro q c _ _; simp [overwriteLoop]
  | succ n ih =>
    intro q cursor hc hh
    unfold overwriteLoop
    by_cases hch : cursor = head
    · rw [if_pos hch]
      subst hch
      simp
    · rw [if_neg hch]
      rw [ih _ ((cursor + 1) % 16) (Nat.mod_lt _ (by omega)) hh]
      omega

theorem foldl_push1 (pix : Nat → Nat) :
    ∀ (l : List Nat) (f : PixelFifo), f.head < 16 →
    ((l.foldl (fun acc x => acc.push1 (pix x)) f).head = (f.head + l.length) % 16
      ∧ (l.foldl (fun acc x => acc.push1 (pix x)) f).tail = f.tail) := by
  intro l
  induction l with
  | nil => intro f hf; simp; omega
  | cons a l ih =>
    intro f hf
    simp only [List.foldl_cons, List.length_cons]
    obtain ⟨h1, h2⟩ := ih (f.push1 (pix a)) (by simp [PixelFifo.push1]; omega)
    refine ⟨?_, ?_⟩
    · rw [h1]
      simp [PixelFifo.push1]
      omega
    · rw [h2]
      rfl

theorem push_sprite_wf (f : PixelFifo) (lo hi cut : Nat) (pal pr : Bool)
    (hwf : f.WF) (hcut : cut ≤ 8) :
    (f.push_sprite lo hi cut pal pr).WF
    ∧ (f.push_sprite lo hi cut pal pr).size = max f.size (8 - cut)
    ∧ (f.push_sprite lo hi cut pal pr).tail = f.tail := by
  obtain ⟨h16, t16, hs⟩ := hwf
  unfold PixelFifo.push_sprite
  set pix := spritePixel lo hi pal pr with hpix
  set r := overwriteLoop pix f.head f.queue f.tail (8 - cut) with hr
  have hx : r.2 = (8 - cut) - min (8 - cut) ((f.head + 16 - f.tail) % 16) :=
    overwriteLoop_snd pix f.head (8 - cut) f.queue f.tail t16 h16
  obtain ⟨hh, ht⟩ := foldl_push1 pix (List.range r.2).reverse
    { f with queue := r.1 } (by simpa using h16)
  simp only [List.length_reverse, List.length_range] at hh
  set g := (List.range r.2).reverse.foldl (fun acc x => acc.push1 (pix x))
    { f with queue := r.1 } with hg
  have hh' : g.head = (f.head + r.2) % 16 := hh
  have ht' : g.tail = f.tail := ht
  unfold PixelFifo.WF PixelFifo.size at *
  rw [hh', ht', hx]
  omega

theorem pop_front_wf (f : PixelFifo) (hwf : f.WF) : (f.pop_front).2.WF := by
  obtain ⟨h16, t16, hs⟩ := hwf
  unfold PixelFifo.pop_front
  split
  · exact ⟨h16, t16, hs⟩
  · refine ⟨h16, Nat.mod_lt _ (by omega), ?_⟩
    unfold PixelFifo.size at *
    simp only
    omega

/-! ## PPU stage preservation lemmas -/

theorem update_stat_pres (p : Ppu) :
    (p.update_stat).1.vram = p.vram ∧ (p.update_stat).1.oam = p.oam
    ∧ (p.update_stat).1.background_fifo = p.background_fifo
    ∧ (p.update_stat).1.sprite_fifo = p.sprite_fifo
    ∧ (p.update_stat).1.next_clock_count = p.next_clock_count
    ∧ (p.update_stat).1.screen = p.screen := by
  simp only [Ppu.update_stat]
  split <;> exact ⟨rfl, rfl, rfl, rfl, rfl, rfl⟩

theorem set_stat_mode_pres (p : Ppu) (m : Nat) :
    (p.set_stat_mode m).vram = p.vram ∧ (p.set_stat_mode m).oam = p.oam
    ∧ (p.set_stat_mode m).background_fifo = p.background_fifo
    ∧ (p.set_stat_mode m).sprite_fifo = p.sprite_fifo := ⟨rfl, rfl, rfl, rfl⟩

theorem search_objects_pres (p : Ppu) :
    (p.search_objects).vram = p.vram ∧ (p.search_objects).oam = p.oam
    ∧ (p.search_objects).background_fifo = p.background_fifo
    ∧ (p.search_objects).sprite_fifo = p.sprite_fifo
    ∧ (p.search_objects).next_clock_count = p.next_clock_count := ⟨rfl, rfl, rfl, rfl, rfl⟩

theorem spriteFetchStep_pres (p : Ppu) (ly : Nat) :
    (spriteFetchStep p ly).vram = p.vram ∧ (spriteFetchStep p ly).oam = p.oam
    ∧ (spriteFetchStep p ly).background_fifo = p.background_fifo
    ∧ (p.sprite_fifo.WF → (spriteFetchStep p ly).sprite_fifo.WF)
    ∧ (spriteFetchStep p ly).screen = p.screen := by
  simp only [spriteFetchStep]
  split
  · exact ⟨rfl, rfl, rfl, fun h => h, rfl⟩
  · split
    · exact ⟨rfl, rfl, rfl, fun h => h, rfl⟩
    · split
      · exact ⟨rfl, rfl, rfl, fun h => h, rfl⟩
      · refine ⟨rfl, rfl, rfl, fun h => ?_, rfl⟩
        exact (push_sprite_wf _ _ _ _ _ _ h (by split <;> omega)).1

theorem bgFetchStep_pres (p : Ppu) (ly : Nat) (w : Bool) :
    (bgFetchStep p ly w).vram = p.vram ∧ (bgFetchStep p ly w).oam = p.oam
    ∧ (p.background_fifo.WF → (bgFetchStep p ly w).background_fifo.WF)
    ∧ (bgFetchStep p ly w).sprite_fifo = p.sprite_fifo
    ∧ (bgFetchStep p ly w).screen = p.screen := by
  simp only [bgFetchStep]
  split
  · exact ⟨rfl, rfl, fun h => h, rfl, rfl⟩
  · split
    · exact ⟨rfl, rfl, fun h => h, rfl, rfl⟩
    · split
      · split
        · exact ⟨rfl, rfl, fun h => h, rfl, rfl⟩
        · exact ⟨rfl, rfl, fun h => h, rfl, rfl⟩
      · split
        · exact ⟨rfl, rfl, fun h => h, rfl, rfl⟩
        · refine ⟨rfl, rfl, fun h => ?_, rfl, rfl⟩
          have hemp : p.background_fifo.size = 0 := by
            have : p.background_fifo.is_empty = true := by
              rename_i hne
              simpa using hne
            obtain ⟨h16, t16, _⟩ := h
            unfold PixelFifo.is_empty at this
            unfold PixelFifo.size
            simp at this
            omega
          exact (push_background_empty_wf _ _ _ h hemp).1

theorem bgPopOutput_pres (q : Ppu) (ly : Nat) :
    (bgPopOutput q ly).vram = q.vram ∧ (bgPopOutput q ly).oam = q.oam
    ∧ (q.background_fifo.WF → (bgPopOutput q ly).background_fifo.WF)
    ∧ (q.sprite_fifo.WF → (bgPopOutput q ly).sprite_fifo.WF) := by
  unfold bgPopOutput
  rcases hq : q.background_fifo.pop_front with ⟨op, f⟩
  cases op with
  | none => exact ⟨rfl, rfl, fun h => h, fun h => h⟩
  | some px =>
    dsimp only
    split
    · refine ⟨rfl, rfl, fun h => ?_, fun h => h⟩
      have := pop_front_wf q.background_fifo h
      rw [hq] at this
      exact this
    · refine ⟨rfl, rfl, fun h => ?_, fun h => ?_⟩
      · have := pop_front_wf q.background_fifo h
        rw [hq] at this
        exact this
      · exact pop_front_wf _ h

theorem pixelOutput_pres (p : Ppu) (ly : Nat) :
    (pixelOutput p ly).vram = p.vram ∧ (pixelOutput p ly).oam = p.oam
    ∧ (p.background_fifo.WF → (pixelOutput p ly).background_fifo.WF)
    ∧ (p.sprite_fifo.WF → (pixelOutput p ly).sprite_fifo.WF) := by
  unfold pixelOutput
  dsimp only
  split
  · obtain ⟨a1, a2, a3, a4⟩ := bgPopOutput_pres
      { p with is_in_window := true, fetcher_step := 0, discarting := 0, fetcher_x := 0,
               background_fifo := p.background_fifo.clear } ly
    exact ⟨a1, a2, fun _ => a3 (clear_wf p.background_fifo).1, fun h => a4 h⟩
  · exact bgPopOutput_pres p ly

theorem tick_lcd_fifo_pres (p : Ppu) (ly : Nat) :
    (tick_lcd_fifo p ly).vram = p.vram ∧ (tick_lcd_fifo p ly).oam = p.oam
    ∧ (p.background_fifo.WF → (tick_lcd_fifo p ly).background_fifo.WF)
    ∧ (p.sprite_fifo.WF → (tick_lcd_fifo p ly).sprite_fifo.WF) := by
  have main : ∀ q : Ppu,
      q.vram = p.vram → q.oam = p.oam →
      (p.background_fifo.WF → q.background_fifo.WF) →
      (p.sprite_fifo.WF → q.sprite_fifo.WF) →
      ((if q.sprite_fetching = false then pixelOutput q ly else q).vram = p.vram
      ∧ (if q.sprite_fetching = false then pixelOutput q ly else q).oam = p.oam
      ∧ (p.background_fifo.WF →
          (if q.sprite_fetching = false then pixelOutput q ly else q).background_fifo.WF)
      ∧ (p.sprite_fifo.WF →
          (if q.sprite_fetching = false then pixelOutput q ly else q).sprite_fifo.WF)) := by
    intro q h1 h2 h3 h4
    split
    · obtain ⟨a1, a2, a3, a4⟩ := pixelOutput_pres q ly
      exact ⟨a1.trans h1, a2.trans h2, fun h => a3 (h3 h), fun h => a4 (h4 h)⟩
    · exact ⟨h1, h2, h3, h4⟩
  have fetch : ∀ q : Ppu,
      q.vram = p.vram → q.oam = p.oam →
      (p.background_fifo.WF → q.background_fifo.WF) →
      (p.sprite_fifo.WF → q.sprite_fifo.WF) → ∀ w : Bool,
      ((if q.sprite_fetching then spriteFetchStep q ly else bgFetchStep q ly w).vram = p.vram
      ∧ (if q.sprite_fetching then spriteFetchStep q ly else bgFetchStep q ly w).oam = p.oam
      ∧ (p.background_fifo.WF →
          (if q.sprite_fetching then spriteFetchStep q ly
           else bgFetchStep q ly w).background_fifo.WF)
      ∧ (p.sprite_fifo.WF →
          (if q.sprite_fetching then spriteFetchStep q ly
           else bgFetchStep q ly w).sprite_fifo.WF)) := by
    intro q h1 h2 h3 h4 w
    split
    · obtain ⟨a1, a2, a3, a4, _⟩ := spriteFetchStep_pres q ly
      exact ⟨a1.trans h1, a2.trans h2, fun h => a3 ▸ h3 h, fun h => a4 (h4 h)⟩
    · obtain ⟨a1, a2, a3, a4, _⟩ := bgFetchStep_pres q ly w
      exact ⟨a1.trans h1, a2.trans h2, fun h => a3 (h3 h), fun h => a4 ▸ h4 h⟩
  have trig : (spriteTrigger p).vram = p.vram ∧ (spriteTrigger p).oam = p.oam
      ∧ (spriteTrigger p).background_fifo = p.background_fifo
      ∧ (spriteTrigger p).sprite_fifo = p.sprite_fifo := by
    unfold spriteTrigger
    dsimp only
    split
    · split
      · exact ⟨rfl, rfl, rfl, rfl⟩
      · exact ⟨rfl, rfl, rfl, rfl⟩
    · exact ⟨rfl, rfl, rfl, rfl⟩
  unfold tick_lcd_fifo
  dsimp only
  set q2 : Ppu := { spriteTrigger p with fetcher_cycle := !(spriteTrigger p).fetcher_cycle }
    with hq2
  have b1 : q2.vram = p.vram := trig.1
  have b2 : q2.oam = p.oam := trig.2.1
  have b3 : p.background_fifo.WF → q2.background_fifo.WF := fun h => trig.2.2.1 ▸ h
  have b4 : p.sprite_fifo.WF → q2.sprite_fifo.WF := fun h => trig.2.2.2 ▸ h
  set q3 : Ppu := if q2.fetcher_cycle = true then
      (if q2.sprite_fetching = true then spriteFetchStep q2 ly
       else bgFetchStep q2 ly p.is_in_window)
    else q2 with hq3
  have c : q3.vram = p.vram ∧ q3.oam = p.oam
      ∧ (p.background_fifo.WF → q3.background_fifo.WF)
      ∧ (p.sprite_fifo.WF → q3.sprite_fifo.WF) := by
    rw [hq3]
    split
    · exact fetch q2 b1 b2 b3 b4 p.is_in_window
    · exact ⟨b1, b2, b3, b4⟩
  exact main q3 c.1 c.2.1 c.2.2.1 c.2.2.2

@[simp] theorem update_stat_vram (p : Ppu) : (p.update_stat).1.vram = p.vram :=
  (update_stat_pres p).1

@[simp] theorem update_stat_oam (p : Ppu) : (p.update_stat).1.oam = p.oam :=
  (update_stat_pres p).2.1

@[simp] theorem update_stat_bgf (p : Ppu) :
    (p.update_stat).1.background_fifo = p.background_fifo := (update_stat_pres p).2.2.1

@[simp] theorem update_stat_sff (p : Ppu) :
    (p.update_stat).1.sprite_fifo = p.sprite_fifo := (update_stat_pres p).2.2.2.1

@[simp] theorem search_objects_vram (p : Ppu) : (p.search_objects).vram = p.vram := rfl

@[simp] theorem search_objects_oam (p : Ppu) : (p.search_objects).oam = p.oam := rfl

@[simp] theorem search_objects_bgf (p : Ppu) :
    (p.search_objects).background_fifo = p.background_fifo := rfl

@[simp] theorem search_objects_sff (p : Ppu) :
    (p.search_objects).sprite_fifo = p.sprite_fifo := rfl

theorem updateState_pres (p : Ppu) (vb st : Bool) (r : Ppu × Bool × Bool)
    (h : p.updateState vb st = some r) :
    r.1.vram = p.vram ∧ r.1.oam = p.oam
    ∧ (p.background_fifo.WF → r.1.background_fifo.WF)
    ∧ (p.sprite_fifo.WF → r.1.sprite_fifo.WF) := by
  unfold Ppu.updateState at h
  split at h
  all_goals try dsimp only at h
  all_goals try (injection h with h; subst h; exact ⟨rfl, rfl, fun a => a, fun a => a⟩)
  all_goals try (split at h <;> (injection h with h; subst h; exact ⟨rfl, rfl, fun a => a, fun a => a⟩))
  all_goals try (injection h with h; subst h; refine ⟨by simp [Ppu.set_stat_mode, apply_ite], by simp [Ppu.set_stat_mode, apply_ite], fun a => by simpa [Ppu.set_stat_mode, apply_ite] using a, fun a => by simpa [Ppu.set_stat_mode, apply_ite] using a⟩)
  all_goals try (injection h with h; subst h; split <;> exact ⟨(tick_lcd_fifo_pres p p.ly).1, (tick_lcd_fifo_pres p p.ly).2.1, fun a => (tick_lcd_fifo_pres p p.ly).2.2.1 a, fun a => (tick_lcd_fifo_pres p p.ly).2.2.2 a⟩)
  all_goals try (injection h with h; subst h; exact ⟨by simp [apply_ite], by simp [apply_ite], fun a => by simp [apply_ite]; exact (clear_wf _).1, fun a => by simp [apply_ite]; exact (clear_wf _).1⟩)
  all_goals simp at h

theorem updateLoop_some (clock : Nat) :
    ∀ (fuel : Nat) (p : Ppu) (vb st : Bool) (r : Ppu × Bool × Bool),
    Ppu.updateLoop clock fuel p vb st = some r →
    (clock ≤ r.1.next_clock_count
    ∧ r.1.vram = p.vram ∧ r.1.oam = p.oam
    ∧ (p.background_fifo.WF → r.1.background_fifo.WF)
    ∧ (p.sprite_fifo.WF → r.1.sprite_fifo.WF)) := by
  intro fuel
  induction fuel with
  | zero =>
    intro p vb st r h
    unfold Ppu.updateLoop at h
    split at h
    · exact absurd h (by simp)
    · injection h with h
      subst h
      refine ⟨by dsimp only; omega, rfl, rfl, fun a => a, fun a => a⟩
  | succ n ih =>
    intro p vb st r h
    unfold Ppu.updateLoop at h
    split at h
    · rename_i hlt
      rcases hs : p.updateState vb st with _ | s
      · rw [hs] at h
        exact absurd h (by simp)
      · rw [hs] at h
        obtain ⟨u1, u2, u3, u4⟩ := updateState_pres p vb st s hs
        obtain ⟨a0, a1, a2, a3, a4⟩ := ih s.1 s.2.1 s.2.2 r h
        exact ⟨a0, a1.trans u1, a2.trans u2, fun a => a3 (u3 a), fun a => a4 (u4 a)⟩
    · rename_i hge
      injection h with h
      subst h
      exact ⟨by dsimp only; omega, rfl, rfl, fun a => a, fun a => a⟩

/-- Every `some` result of `Ppu::update` has caught the PPU up to the clock
(`next_clock_count ≥ clock`), leaves VRAM and OAM untouched, and preserves
well-formedness of both pixel FIFOs. -/
theorem ppu_update_some (clock fuel : Nat) (p : Ppu) (r : Ppu × Bool × Bool)
    (h : Ppu.update clock fuel p = some r) :
    clock ≤ r.1.next_clock_count
    ∧ r.1.vram = p.vram ∧ r.1.oam = p.oam
    ∧ (p.background_fifo.WF → r.1.background_fifo.WF)
    ∧ (p.sprite_fifo.WF → r.1.sprite_fifo.WF) := by
  unfold Ppu.update at h
  split at h
  · injection h with h
    subst h
    exact ⟨le_refl _, rfl, rfl, fun a => a, fun a => a⟩
  · obtain ⟨a0, a1, a2, a3, a4⟩ := updateLoop_some clock fuel (p.update_stat).1 false
      (p.update_stat).2 r h
    refine ⟨a0, a1.trans (by simp), a2.trans (by simp), fun a => a3 (by simpa), fun a => a4 (by simpa)⟩

/-! ## C5: bus reads of PPU-backed regions -/

/-- C5 (counterexample): a VRAM read through the bus does **not** advance the
PPU.  On a state whose PPU is behind the clock (`next_clock_count = 0 <
clock_count = 5`), reading 0x8000 returns the raw VRAM byte and leaves the
machine — including `ppu.next_clock_count` — unchanged, so afterwards
`ppu.next_clock_count ≥ clock_count` fails. -/
theorem c5_read_vram_no_update_cex :
    GameBoy.read 1 gbBehind 0x8000 = some (0, gbBehind)
    ∧ gbBehind.ppu.next_clock_count < gbBehind.clock_count := ⟨rfl, by decide⟩

theorem read_vram_direct (fuel : Nat) (gb : GameBoy) (a : Nat) (ha : a ≤ 0x1FFF) :
    GameBoy.read fuel gb (0x8000 + a) = some (gb.ppu.vram a, gb) := by
  unfold GameBoy.read
  rw [if_neg (by rintro ⟨-, h2⟩; omega)]
  dsimp only
  rw [if_neg (show ¬(0xE000 ≤ 0x8000 + a ∧ 0x8000 + a ≤ 0xFDFF) by omega),
    if_neg (show ¬(0x8000 + a ≤ 0x7FFF) by omega),
    if_pos (show 0x8000 + a ≤ 0x9FFF by omega),
    show 0x8000 + a - 0x8000 = a by omega]

theorem read_oam_direct (fuel : Nat) (gb : GameBoy) (a : Nat) (ha : a ≤ 0x9F) :
    GameBoy.read fuel gb (0xFE00 + a) = some (gb.ppu.oam a, gb) := by
  unfold GameBoy.read
  rw [if_neg (by rintro ⟨-, h2⟩; omega)]
  dsimp only
  rw [if_neg (show ¬(0xE000 ≤ 0xFE00 + a ∧ 0xFE00 + a ≤ 0xFDFF) by omega),
    if_neg (show ¬(0xFE00 + a ≤ 0x7FFF) by omega),
    if_neg (show ¬(0xFE00 + a ≤ 0x9FFF) by omega),
    if_neg (show ¬(0xFE00 + a ≤ 0xBFFF) by omega),
    if_neg (show ¬(0xFE00 + a ≤ 0xDFFF) by omega),
    if_pos (show 0xFE00 + a ≤ 0xFE9F by omega),
    show 0xFE00 + a - 0xFE00 = a by omega]

/-- C5 (amended): only the STAT (0xFF41) and LY (0xFF44) register reads call
`Ppu::update` before the value is taken (afterwards `next_clock_count ≥
clock_count`); VRAM and OAM bus reads return the PPU's bytes directly and
leave the machine unchanged — which still equals the caught-up PPU's value,
because `Ppu::update` never writes VRAM or OAM. -/
theorem c5_read_ppu_regions_amended :
    (∀ (fuel : Nat) (gb : GameBoy) (a : Nat), a ≤ 0x1FFF →
        GameBoy.read fuel gb (0x8000 + a) = some (gb.ppu.vram a, gb))
    ∧ (∀ (fuel : Nat) (gb : GameBoy) (a : Nat), a ≤ 0x9F →
        GameBoy.read fuel gb (0xFE00 + a) = some (gb.ppu.oam a, gb))
    ∧ (∀ (clock fuel : Nat) (p : Ppu) (r : Ppu × Bool × Bool),
        Ppu.update clock fuel p = some r → r.1.vram = p.vram ∧ r.1.oam = p.oam)
    ∧ (∀ (fuel : Nat) (gb : GameBoy) (v : Nat) (gb' : GameBoy),
        GameBoy.read fuel gb 0xFF41 = some (v, gb') →
        gb.clock_count ≤ gb'.ppu.next_clock_count ∧ v = gb'.ppu.stat ||| 0x80)
    ∧ (∀ (fuel : Nat) (gb : GameBoy) (v : Nat) (gb' : GameBoy),
        GameBoy.read fuel gb 0xFF44 = some (v, gb') →
        gb.clock_count ≤ gb'.ppu.next_clock_count ∧ v = gb'.ppu.ly) := by
  refine ⟨read_vram_direct, read_oam_direct, ?_, ?_, ?_⟩
  · intro clock fuel p r h
    exact ⟨(ppu_update_some clock fuel p r h).2.1, (ppu_update_some clock fuel p r h).2.2.1⟩
  · intro fuel gb v gb' h
    unfold GameBoy.read at h
    rw [if_neg (by rintro ⟨-, h2⟩; omega)] at h
    norm_num at h
    unfold GameBoy.read_io Ppu.readReg at h
    norm_num at h
    rcases hu : Ppu.update gb.clock_count fuel gb.ppu with _ | r
    · rw [hu] at h
      exact absurd h (by simp)
    · rw [hu] at h
      simp only [Option.some.injEq, Prod.mk.injEq] at h
      obtain ⟨hv, hgb⟩ := h
      subst hgb
      exact ⟨(ppu_update_some _ _ _ _ hu).1, hv.symm⟩
  · intro fuel gb v gb' h
    unfold GameBoy.read at h
    rw [if_neg (by rintro ⟨-, h2⟩; omega)] at h
    norm_num at h
    unfold GameBoy.read_io Ppu.readReg at h
    norm_num at h
    rcases hu : Ppu.update gb.clock_count fuel gb.ppu with _ | r
    · rw [hu] at h
      exact absurd h (by simp)
    · rw [hu] at h
      simp only [Option.some.injEq, Prod.mk.injEq] at h
      obtain ⟨hv, hgb⟩ := h
      subst hgb
      exact ⟨(ppu_update_some _ _ _ _ hu).1, hv.symm⟩

/-! ## C3: invariants of `Board::tick` -/

/-- C3: after every (fuel-sufficient) `tick(n)`: the clock advanced by exactly
`n`; the timer's `last_clock_count` equals the new clock; the PPU has caught
up (`next_clock_count ≥ clock_count`); IF bit 2 is set if the timer
overflowed in the interval; IF bits 0 and 1 are set on the v-blank and STAT
edges the PPU reported; and IF bits are only ever added, never cleared. -/
theorem c3_tick_invariants (fuel : Nat) (gb : GameBoy) (n : Nat) (gb' : GameBoy)
    (h : GameBoy.tick fuel gb n = some gb') :
    gb'.clock_count = gb.clock_count + n
    ∧ gb'.timer.last_clock_count = gb'.clock_count
    ∧ gb'.clock_count ≤ gb'.ppu.next_clock_count
    ∧ ((gb.timer.update (gb.clock_count + n)).2 = true → gb'.interrupt_flag.testBit 2 = true)
    ∧ (∀ b, gb.interrupt_flag.testBit b = true → gb'.interrupt_flag.testBit b = true)
    ∧ ∃ vb st, Ppu.update (gb.clock_count + n) fuel gb.ppu = some (gb'.ppu, vb, st)
        ∧ (vb = true → gb'.interrupt_flag.testBit 0 = true)
        ∧ (st = true → gb'.interrupt_flag.testBit 1 = true) := by
  unfold GameBoy.tick at h
  dsimp only at h
  rcases hu : Ppu.update (gb.clock_count + n) fuel gb.ppu with _ | r
  · rw [hu] at h
    exact absurd h (by simp)
  · rw [hu] at h
    injection h with h
    subst h
    refine ⟨?_, ?_, ?_, ?_, ?_, r.2.1, r.2.2, ?_, ?_, ?_⟩
    · repeat' split
      all_goals rfl
    · repeat' split
      all_goals rfl
    · have h3 := (ppu_update_some _ _ _ _ hu).1
      repeat' split
      all_goals exact h3
    · intro ht
      repeat' split
      all_goals simp_all [Nat.testBit_or, show Nat.testBit 4 2 = true from rfl]
    · intro b hb
      repeat' split
      all_goals simp [Nat.testBit_or, hb]
    · congr 1
      refine Prod.ext ?_ rfl
      repeat' split
      all_goals rfl
    · intro hvb
      repeat' split
      all_goals simp_all [Nat.testBit_or, show Nat.testBit 1 0 = true from rfl]
    · intro hst
      repeat' split
      all_goals simp_all [Nat.testBit_or, show Nat.testBit 2 1 = true from rfl]

/-- C3 (witness): `tick(4)` on the concrete base machine succeeds and
advances the clock by exactly 4. -/
theorem c3_tick_invariants_witness :
    ∃ gb', GameBoy.tick 1 gbBase 4 = some gb'
      ∧ gb'.clock_count = gbBase.clock_count + 4 := by
  have hs : (GameBoy.tick 1 gbBase 4).isSome = true := by decide
  rcases Option.isSome_iff_exists.mp hs with ⟨gb', hgb⟩
  exact ⟨gb', hgb, (c3_tick_invariants 1 gbBase 4 gb' hgb).1⟩

/-! ## C4: OAM DMA (write to 0xFF46) -/

theorem read_wram_direct (fuel : Nat) (gb : GameBoy) (a : Nat) (ha : a ≤ 0x1FFF) :
    GameBoy.read fuel gb (0xC000 + a) = some (gb.wram a, gb) := by
  unfold GameBoy.read
  rw [if_neg (by rintro ⟨-, h2⟩; omega)]
  dsimp only
  rw [if_neg (show ¬(0xE000 ≤ 0xC000 + a ∧ 0xC000 + a ≤ 0xFDFF) by omega),
    if_neg (show ¬(0xC000 + a ≤ 0x7FFF) by omega),
    if_neg (show ¬(0xC000 + a ≤ 0x9FFF) by omega),
    if_neg (show ¬(0xC000 + a ≤ 0xBFFF) by omega),
    if_pos (show 0xC000 + a ≤ 0xDFFF by omega),
    show 0xC000 + a - 0xC000 = a by omega]

theorem write_oam_direct (fuel : Nat) (gb : GameBoy) (a v : Nat) (ha : a ≤ 0x9F) :
    GameBoy.writeAux (fuel + 1) false gb (0xFE00 + a) v =
      some { gb with ppu := { gb.ppu with
        oam := fun j => if j = a then v % 256 else gb.ppu.oam j } } := by
  unfold GameBoy.writeAux
  dsimp only
  rw [if_neg (show ¬(0xE000 ≤ 0xFE00 + a ∧ 0xFE00 + a ≤ 0xFDFF) by omega),
    if_neg (show ¬(0xFE00 + a ≤ 0x7FFF) by omega),
    if_neg (show ¬(0xFE00 + a ≤ 0x9FFF) by omega),
    if_neg (show ¬(0xFE00 + a ≤ 0xBFFF) by omega),
    if_neg (show ¬(0xFE00 + a ≤ 0xDFFF) by omega),
    if_pos (show 0xFE00 + a ≤ 0xFE9F by omega),
    show 0xFE00 + a - 0xFE00 = a by omega]

theorem dma_fold_wram (rf wf : Nat) :
    ∀ (cnt k : Nat), k + cnt ≤ 0x9F → ∀ gb : GameBoy,
    ∃ gb' : GameBoy,
      (List.zip (List.range' (0xFE00 + k) (160 - k)) (List.range' (0xC000 + k) cnt)).foldlM
        (dmaStep rf (fun g i v => GameBoy.writeAux (wf + 1) false g i v)) gb = some gb'
      ∧ (∀ j, gb'.ppu.oam j =
          if k ≤ j ∧ j < k + cnt then gb.wram j % 256 else gb.ppu.oam j)
      ∧ gb'.wram = gb.wram := by
  intro cnt
  induction cnt with
  | zero =>
    intro k hk gb
    refine ⟨gb, by simp, fun j => by rw [if_neg (by omega)], rfl⟩
  | succ m ih =>
    intro k hk gb
    have h160 : 160 - k = (160 - (k + 1)) + 1 := by omega
    rw [h160, List.range'_succ, List.range'_succ, List.zip_cons_cons, List.foldlM_cons]
    have hstep : dmaStep rf (fun g i v => GameBoy.writeAux (wf + 1) false g i v) gb
        (0xFE00 + k, 0xC000 + k) = some
          { gb with ppu := { gb.ppu with
            oam := fun j => if j = k then gb.wram k % 256 else gb.ppu.oam j } } := by
      unfold dmaStep
      rw [read_wram_direct rf gb k (by omega)]
      exact write_oam_direct wf gb k (gb.wram k) (by omega)
    rw [hstep]
    set gb1 : GameBoy := { gb with ppu := { gb.ppu with
      oam := fun j => if j = k then gb.wram k % 256 else gb.ppu.oam j } } with hgb1
    obtain ⟨gb', hfold, hoam, hwram⟩ := ih (k + 1) (by omega) gb1
    refine ⟨gb', ?_, ?_, ?_⟩
    · rw [show 0xFE00 + k + 1 = 0xFE00 + (k + 1) by omega,
        show 0xC000 + k + 1 = 0xC000 + (k + 1) by omega]
      exact hfold
    · intro j
      rw [hoam j]
      have hw1 : gb1.wram j = gb.wram j := rfl
      have ho1 : gb1.ppu.oam j = if j = k then gb.wram k % 256 else gb.ppu.oam j := rfl
      rw [hw1, ho1]
      by_cases h1 : k + 1 ≤ j ∧ j < k + 1 + m
      · rw [if_pos h1, if_pos (by omega)]
      · rw [if_neg h1]
        by_cases h2 : j = k
        · subst h2
          rw [if_pos rfl, if_pos (by omega)]
        · rw [if_neg h2, if_neg (by omega)]
    · exact hwram

/-- Writing 0xC0 to 0xFF46 copies work RAM into OAM — but only the first
0x9F = 159 bytes: the zipped source range `start..start + 0x9F` is one
element short, so OAM byte 0x9F is never written. -/
theorem dma_c0_copies (gb : GameBoy) :
    ∃ gb', GameBoy.write 3 gb 0xFF46 0xC0 = some gb'
      ∧ (∀ j, j < 0x9F → gb'.ppu.oam j = gb.wram j % 256)
      ∧ gb'.ppu.oam 0x9F = gb.ppu.oam 0x9F := by
  obtain ⟨gb', hfold, hoam, _⟩ := dma_fold_wram 2 0 0x9F 0 (by omega) gb
  refine ⟨gb', hfold, ?_, ?_⟩
  · intro j hj
    rw [hoam j, if_pos ⟨by omega, by omega⟩]
  · rw [hoam 0x9F, if_neg (by omega)]

/-- C4 (the code at the failing input): the DMA copy loop
`(0xFE00..=0xFE9F).zip(start..start + 0x9F)` zips a 160-element range with a
159-element one, so on `write 0xFF46 = 0xC0` the final OAM byte keeps its old
value (here 0) instead of WRAM's byte 0x9F (here 0xA0): the claimed "for
every offset k in 0..0xA0" copy fails at k = 0x9F. -/
theorem c4_dma_off_by_one :
    ∃ gb', GameBoy.write 3 gbDma 0xFF46 0xC0 = some gb'
      ∧ (∀ j, j < 0x9F → gb'.ppu.oam j = gbDma.wram j)
      ∧ gb'.ppu.oam 0x9F = 0
      ∧ gbDma.wram 0x9F = 0xA0
      ∧ gb'.ppu.oam 0x9F ≠ gbDma.wram 0x9F := by
  obtain ⟨gb', h1, h2, h3⟩ := dma_c0_copies gbDma
  refine ⟨gb', h1, ?_, ?_, by decide, ?_⟩
  · intro j hj
    rw [h2 j hj]
    show (j + 1) % 256 % 256 = (j + 1) % 256
    exact Nat.mod_mod_of_dvd _ (dvd_refl 256)
  · rw [h3]
    rfl
  · rw [h3]
    decide

/-! ## C9: reading the interrupt-flag register -/

/-- C9 (counterexample): reading IO 0xFF0F does **not** force the upper three
bits to 1 — on the freshly initialised machine (`interrupt_flag = 0`, as
`GameBoy::new` sets it) the read returns 0, whose upper three bits are 0. -/
theorem c9_if_upper_bits_cex :
    (GameBoy.read_io 1 gbBase 0x0F).map (fun r => r.1) = some 0
    ∧ ((0 : Nat) &&& 0xE0) ≠ 0xE0 := by
  exact ⟨rfl, by decide⟩

/-- C9 (amended): reading IO 0xFF0F (through `read_io` or through the full bus
`read`) returns the stored interrupt-flag byte verbatim; the low 5 bits are
the pending-interrupt bits and the upper 3 bits read back exactly as stored —
they are *not* forced to 1. -/
theorem c9_read_if_amended (fuel : Nat) (gb : GameBoy) :
    GameBoy.read_io fuel gb 0x0F = some (gb.interrupt_flag, gb)
    ∧ GameBoy.read fuel gb 0xFF0F = some (gb.interrupt_flag, gb) := by
  constructor
  · rfl
  · simp only [GameBoy.read]
    norm_num
    rfl

/-! ## C8: the joypad register -/

/-- C8 (counterexample): the select polarity of the claim (active-low) does
not match the code.  Writing 0x10 (bit 4 = 1, bit 5 = 0) with D-pad inputs
released and buttons pressed (`joypad = 0xF0`): the claim predicts 0xD0
(bit 5 = 0 selects the button nibble `0x0F = 0`), the code returns 0xDF (bit
4 = 1 ORs in the D-pad nibble `0xF0 >> 4 = 0xF`). -/
theorem c8_joypad_polarity_cex :
    ((GameBoy.write_io 1 gbJoy 0x00 0x10).bind
        fun g => (GameBoy.read_io 1 g 0x00).map (fun r => r.1)) = some 0xDF
    ∧ joypadReadClaim 0x10 gbJoy.joypad = 0xD0
    ∧ (0xDF : Nat) ≠ 0xD0 := by
  refine ⟨rfl, rfl, by decide⟩

/-- C8 (amended): after writing `v` to IO 0xFF00, a read of 0xFF00 returns a
byte whose bits 6-7 are 1 and whose bits 4-5 equal `v`'s bits 4-5; bits 0-3
are the OR of the nibbles whose select bit was written as **1** (bit 4 = 1
ORs in the D-pad nibble `(joypad & 0xF0) >> 4`, bit 5 = 1 ORs in the button
nibble `joypad & 0x0F`); with both select bits 0 the low nibble reads 0. -/
theorem c8_joypad_read_amended (fuel : Nat) (gb : GameBoy) (v : Nat) :
    ∃ gb', GameBoy.write_io (fuel + 1) gb 0x00 v = some gb'
      ∧ GameBoy.read_io fuel gb' 0x00 = some (joypadReadAmended v gb.joypad, gb')
      ∧ joypadReadAmended v gb.joypad &&& 0xC0 = 0xC0
      ∧ joypadReadAmended v gb.joypad &&& 0x30 = v &&& 0x30 := by
  refine ⟨{ gb with joypad_io := 0b11001111 ||| (v &&& 0x30) }, rfl, ?_, ?_, ?_⟩
  · have h10 : (0b11001111 ||| (v &&& 0x30)) &&& 0x10 = v &&& 0x10 :=
      joypad_mask v 0x10 (by decide) (by decide)
    have h20 : (0b11001111 ||| (v &&& 0x30)) &&& 0x20 = v &&& 0x20 :=
      joypad_mask v 0x20 (by decide) (by decide)
    have h30 : (0b11001111 ||| (v &&& 0x30)) &&& 0x30 = v &&& 0x30 :=
      joypad_mask v 0x30 (by decide) (by decide)
    simp [GameBoy.read_io, joypadReadAmended, h10, h20, h30]
  · have hd : (gb.joypad &&& 0xF0) >>> 4 < 16 := by
      have : gb.joypad &&& 0xF0 ≤ 0xF0 := Nat.and_le_right
      rw [Nat.shiftRight_eq_div_pow]
      omega
    have hb : gb.joypad &&& 0x0F < 16 := by
      have : gb.joypad &&& 0x0F ≤ 0x0F := Nat.and_le_right
      omega
    unfold joypadReadAmended
    have base : ((v &&& 0x30) ||| 0xC0) &&& 0xC0 = 0xC0 := by
      rw [and_or_right, Nat.and_assoc, show (0x30 : Nat) &&& 0xC0 = 0 by decide,
        Nat.and_zero, Nat.zero_or]
      decide
    split
    · split
      · rw [and_or_right, and_or_right, base, small_and_zero 0xC0 hd (by decide),
          small_and_zero 0xC0 hb (by decide)]
        simp
      · rw [and_or_right, base, small_and_zero 0xC0 hd (by decide)]
        simp
    · split
      · rw [and_or_right, base, small_and_zero 0xC0 hb (by decide)]
        simp
      · exact base
  · have hd : (gb.joypad &&& 0xF0) >>> 4 < 16 := by
      have : gb.joypad &&& 0xF0 ≤ 0xF0 := Nat.and_le_right
      rw [Nat.shiftRight_eq_div_pow]
      omega
    have hb : gb.joypad &&& 0x0F < 16 := by
      have : gb.joypad &&& 0x0F ≤ 0x0F := Nat.and_le_right
      omega
    unfold joypadReadAmended
    have base : ((v &&& 0x30) ||| 0xC0) &&& 0x30 = v &&& 0x30 := by
      rw [and_or_right, Nat.and_assoc, show (0x30 : Nat) &&& 0x30 = 0x30 by decide,
        show (0xC0 : Nat) &&& 0x30 = 0 by decide, Nat.or_zero]
    split
    · split
      · rw [and_or_right, and_or_right, base, small_and_zero 0x30 hd (by decide),
          small_and_zero 0x30 hb (by decide)]
        simp
      · rw [and_or_right, base, small_and_zero 0x30 hd (by decide)]
        simp
    · split
      · rw [and_or_right, base, small_and_zero 0x30 hb (by decide)]
        simp
      · exact base

/-! ## C10: the pixel FIFOs never overflow -/

/-- The fetcher's push stage leaves the background FIFO alone unless the FIFO
is empty (`ppu.rs:1027-1037`). -/
theorem bgFetchStep_push_only_when_empty (q : Ppu) (ly : Nat) (w : Bool) :
    (bgFetchStep q ly w).background_fifo = q.background_fifo
    ∨ (q.background_fifo.is_empty = true
        ∧ (bgFetchStep q ly w).background_fifo
          = q.background_fifo.push_background q.fetch_tile_data_low q.fetch_tile_data_hight) := by
  unfold bgFetchStep
  dsimp only
  repeat' split
  all_goals first
    | exact Or.inl rfl
    | (refine Or.inr ⟨?_, rfl⟩; simp_all)

/-- C10: the 16-slot pixel FIFOs never overflow.  A background push happens
only when the background FIFO is empty and fills it with exactly 8 pixels
(leaving `head ≠ tail`); `push_sprite` overwrites queued transparent pixels
and appends at most the remaining `8 - cut_off`, so a well-formed sprite FIFO
stays well-formed with at most `max size (8 - cut_off) ≤ 8` pixels; `pop_front`
and every dot of `tick_lcd_fifo`, and hence every `Ppu::update`, preserve
well-formedness of both FIFOs; and well-formedness bounds every queue index:
`head < 16`, `tail < 16`, `size ≤ 8`. -/
theorem c10_fifo_no_overflow :
    (∀ (f : PixelFifo) (lo hi : Nat), f.WF → f.size = 0 →
        (f.push_background lo hi).WF ∧ (f.push_background lo hi).size = 8
        ∧ (f.push_background lo hi).head ≠ (f.push_background lo hi).tail)
    ∧ (∀ (q : Ppu) (ly : Nat) (w : Bool),
        (bgFetchStep q ly w).background_fifo = q.background_fifo
        ∨ (q.background_fifo.is_empty = true
            ∧ (bgFetchStep q ly w).background_fifo
              = q.background_fifo.push_background q.fetch_tile_data_low q.fetch_tile_data_hight))
    ∧ (∀ (f : PixelFifo) (lo hi cut : Nat) (pal pr : Bool), f.WF → cut ≤ 8 →
        (f.push_sprite lo hi cut pal pr).WF
        ∧ (f.push_sprite lo hi cut pal pr).size = max f.size (8 - cut))
    ∧ (∀ f : PixelFifo, f.WF → (f.pop_front).2.WF)
    ∧ (∀ (p : Ppu) (ly : Nat),
        (p.background_fifo.WF → (tick_lcd_fifo p ly).background_fifo.WF)
        ∧ (p.sprite_fifo.WF → (tick_lcd_fifo p ly).sprite_fifo.WF))
    ∧ (∀ (clock fuel : Nat) (p : Ppu) (r : Ppu × Bool × Bool),
        Ppu.update clock fuel p = some r →
        (p.background_fifo.WF → r.1.background_fifo.WF)
        ∧ (p.sprite_fifo.WF → r.1.sprite_fifo.WF))
    ∧ (∀ f : PixelFifo, f.WF → f.head < 16 ∧ f.tail < 16 ∧ f.size ≤ 8) := by
  refine ⟨push_background_empty_wf, bgFetchStep_push_only_when_empty, ?_, pop_front_wf,
    ?_, ?_, ?_⟩
  · intro f lo hi cut pal pr hwf hcut
    exact ⟨(push_sprite_wf f lo hi cut pal pr hwf hcut).1,
      (push_sprite_wf f lo hi cut pal pr hwf hcut).2.1⟩
  · intro p ly
    exact ⟨(tick_lcd_fifo_pres p ly).2.2.1, (tick_lcd_fifo_pres p ly).2.2.2⟩
  · intro clock fuel p r h
    exact ⟨(ppu_update_some clock fuel p r h).2.2.2.1,
      (ppu_update_some clock fuel p r h).2.2.2.2⟩
  · intro f hwf
    exact hwf

/-! ## The save-state codec round-trip (C6, C7) -/

/-- Running a bind of the load monad when the first action's result on the
stream is known. -/
theorem loadM_bind {α β : Type} (m : LoadM α) (k : α → LoadM β) (s s' : List Nat) (a : α)
    (h : m s = Except.ok (a, s')) : (m >>= k) s = k a s' := by
  show (m s >>= fun p => k p.1 p.2) = k a s'
  rw [h]
  rfl

theorem loadM_pure {α : Type} (a : α) (s : List Nat) :
    (pure a : LoadM α) s = Except.ok (a, s) := rfl

theorem ld8_sv (v : Nat) (r : List Nat) : ld8 (sv8 v ++ r) = Except.ok (v % 256, r) := rfl

/-- Reading exactly the bytes that sit at the front of the stream returns
them. -/
theorem ldBytes_append : ∀ (bs r : List Nat), ldBytes bs.length (bs ++ r) = Except.ok (bs, r)
  | [], r => rfl
  | b :: bs, r => by
    show (ld8 >>= fun x => ldBytes bs.length >>= fun xs => pure (x :: xs)) _ = _
    rw [loadM_bind _ _ _ (bs ++ r) b rfl,
      loadM_bind _ _ _ r bs (ldBytes_append bs r)]
    rfl

theorem ldBytes_sv (n : Nat) (f : Nat → Nat) (r : List Nat) :
    ldBytes n (svBytes n f ++ r) = Except.ok (svBytes n f, r) := by
  nth_rewrite 1 [show n = (svBytes n f).length from by simp [svBytes]]
  exact ldBytes_append _ _


/-- A `u16` round-trips through the codec as its value mod 2^16. -/
theorem ld16_sv (v : Nat) (r : List Nat) : ld16 (sv16 v ++ r) = Except.ok (v % U16, r) := by
  show Except.ok (fromLE [v % 256, (v >>> 8) % 256], r) = _
  have : fromLE [v % 256, (v >>> 8) % 256] = v % U16 := by
    show v % 256 + 256 * ((v >>> 8) % 256 + 256 * 0) = v % U16
    rw [Nat.shiftRight_eq_div_pow]
    show v % 256 + 256 * (v / 2 ^ 8 % 256 + 256 * 0) = v % 65536
    norm_num
    omega
  rw [this]

/-- A `u64` round-trips through the codec as its value mod 2^64. -/
theorem ld64_sv (v : Nat) (r : List Nat) : ld64 (sv64 v ++ r) = Except.ok (v % U64, r) := by
  show Except.ok (fromLE [v % 256, (v >>> 8) % 256, (v >>> 16) % 256, (v >>> 24) % 256,
    (v >>> 32) % 256, (v >>> 40) % 256, (v >>> 48) % 256, (v >>> 56) % 256], r) = _
  have : fromLE [v % 256, (v >>> 8) % 256, (v >>> 16) % 256, (v >>> 24) % 256,
      (v >>> 32) % 256, (v >>> 40) % 256, (v >>> 48) % 256, (v >>> 56) % 256] = v % U64 := by
    simp only [fromLE, List.foldr, Nat.shiftRight_eq_div_pow, U64]
    norm_num
    omega
  rw [this]


/-- A 1-bool pack round-trips. -/
theorem ldBools1_sv (b : Bool) (r : List Nat) :
    ldBools 1 (svBools [b] ++ r) = Except.ok ([b], r) := by
  cases b <;> rfl

/-- A 6-bool pack round-trips (LSB-first). -/
theorem ldBools6_sv (b1 b2 b3 b4 b5 b6 : Bool) (r : List Nat) :
    ldBools 6 (svBools [b1, b2, b3, b4, b5, b6] ++ r)
      = Except.ok ([b1, b2, b3, b4, b5, b6], r) := by
  cases b1 <;> cases b2 <;> cases b3 <;> cases b4 <;> cases b5 <;> cases b6 <;> rfl

theorem ldSprite_sv (s : Sprite) (r : List Nat) :
    ldSprite (svSprite s ++ r) = Except.ok (normSprite s, r) := rfl

theorem ldFifo_sv (f : PixelFifo) (r : List Nat) :
    ldFifo (svFifo f ++ r) = Except.ok (normFifo f, r) := rfl

/-- The timer round-trips to its normal form. -/
theorem ldTimer_sv (t : Timer) (r : List Nat) :
    ldTimer (svTimer t ++ r) = Except.ok (normTimer t, r) := by
  unfold ldTimer svTimer
  simp only [List.append_assoc]
  rw [loadM_bind _ _ _ _ _ (ld16_sv t.div _)]
  rw [loadM_bind _ _ _ _ _ (ld8_sv t.tima _)]
  rw [loadM_bind _ _ _ _ _ (ld8_sv t.tma _)]
  rw [loadM_bind _ _ _ _ _ (ld8_sv t.tac _)]
  rw [loadM_bind _ _ _ _ _ (ldBools1_sv t.last_counter_bit _)]
  rw [loadM_bind _ _ _ _ _ (ld64_sv t.last_clock_count _)]
  rfl

/-- The CPU register file round-trips to its normal form. -/
theorem ldCpu_sv (c : Cpu) (r : List Nat) :
    ldCpu (svCpu c ++ r) = Except.ok (normCpu c, r) := by
  unfold ldCpu svCpu
  simp only [List.append_assoc]
  rw [loadM_bind _ _ _ _ _ (ld8_sv c.a _)]
  rw [loadM_bind _ _ _ _ _ (ld8_sv c.f _)]
  rw [loadM_bind _ _ _ _ _ (ld8_sv c.b _)]
  rw [loadM_bind _ _ _ _ _ (ld8_sv c.c _)]
  rw [loadM_bind _ _ _ _ _ (ld8_sv c.d _)]
  rw [loadM_bind _ _ _ _ _ (ld8_sv c.e _)]
  rw [loadM_bind _ _ _ _ _ (ld8_sv c.h _)]
  rw [loadM_bind _ _ _ _ _ (ld8_sv c.l _)]
  rw [loadM_bind _ _ _ _ _ (ld16_sv c.sp _)]
  rw [loadM_bind _ _ _ _ _ (ld16_sv c.pc _)]
  rw [loadM_bind _ _ _ _ _ (ld8_sv c.ime _)]
  rw [loadM_bind _ _ _ _ _ (ld8_sv c.state _)]
  rfl

theorem ldCart_sv (f : Nat → Nat) (r : List Nat) :
    ldCart (svCart f ++ r) = Except.ok ((fun i => (svCart f).getD i 0), r) := by
  unfold ldCart svCart
  rw [loadM_bind _ _ _ _ _ (ldBytes_sv cartSavLen f _)]
  rfl


theorem ldSpriteBuffer_append : ∀ (ss : List Sprite) (r : List Nat),
    ldSpriteBuffer ss.length ((ss.map svSprite).flatten ++ r)
      = Except.ok (ss.map normSprite, r)
  | [], r => rfl
  | s :: ss, r => by
    show (ldSprite >>= fun x => ldSpriteBuffer ss.length >>= fun xs => pure (x :: xs))
        (svSprite s ++ ((ss.map svSprite).flatten ++ r)) = _
    rw [loadM_bind _ _ _ _ _ (ldSprite_sv s _),
      loadM_bind _ _ _ _ _ (ldSpriteBuffer_append ss r)]
    rfl

/-- The 10-sprite buffer round-trips to its normal form. -/
theorem ldSpriteBuffer_sv (buf : List Sprite) (r : List Nat) :
    ldSpriteBuffer 10 (svSpriteBuffer buf ++ r)
      = Except.ok (normSpriteBuffer buf, r) := by
  have h1 : svSpriteBuffer buf
      = (((List.range 10).map fun i => buf.getD i Inhabited.default).map svSprite).flatten := by
    simp only [svSpriteBuffer, List.map_map]
    rfl
  have h2 : normSpriteBuffer buf
      = ((List.range 10).map fun i => buf.getD i Inhabited.default).map normSprite := by
    simp only [normSpriteBuffer, List.map_map]
    rfl
  have h3 : (10 : Nat) = ((List.range 10).map fun i => buf.getD i Inhabited.default).length := by
    simp
  rw [h1, h2]
  nth_rewrite 1 [h3]
  exact ldSpriteBuffer_append _ _


/-- The PPU round-trips to its normal form (independent of the decode
target). -/
theorem ldPpu_sv (p0 p : Ppu) (r : List Nat) :
    ldPpu p0 (svPpu p ++ r) = Except.ok (normPpu p, r) := by
  unfold ldPpu svPpu
  simp only [List.append_assoc]
  rw [loadM_bind _ _ _ _ _ (ldBytes_sv 0x2000 p.vram _)]
  rw [loadM_bind _ _ _ _ _ (ldBytes_sv 0xA0 p.oam _)]
  rw [loadM_bind _ _ _ _ _ (ldBytes_sv (144 * 160) p.screen _)]
  rw [loadM_bind _ _ _ _ _ (ldSpriteBuffer_sv p.sprite_buffer _)]
  rw [loadM_bind _ _ _ _ _ (ld8_sv p.sprite_buffer_len _)]
  rw [loadM_bind _ _ _ _ _ (ld8_sv p.wyc _)]
  rw [loadM_bind _ _ _ _ _ (ld8_sv p.lcdc _)]
  rw [loadM_bind _ _ _ _ _ (ld8_sv p.stat _)]
  rw [loadM_bind _ _ _ _ _ (ld8_sv p.scy _)]
  rw [loadM_bind _ _ _ _ _ (ld8_sv p.scx _)]
  rw [loadM_bind _ _ _ _ _ (ld8_sv p.ly _)]
  rw [loadM_bind _ _ _ _ _ (ld8_sv p.lyc _)]
  rw [loadM_bind _ _ _ _ _ (ld8_sv p.bgp _)]
  rw [loadM_bind _ _ _ _ _ (ld8_sv p.obp0 _)]
  rw [loadM_bind _ _ _ _ _ (ld8_sv p.obp1 _)]
  rw [loadM_bind _ _ _ _ _ (ld8_sv p.wy _)]
  rw [loadM_bind _ _ _ _ _ (ld8_sv p.wx _)]
  rw [loadM_bind _ _ _ _ _ (ld8_sv p.state _)]
  rw [loadM_bind _ _ _ _ _ (ld8_sv p.ly_for_compare _)]
  rw [loadM_bind _ _ _ _ _ (ld64_sv p.next_clock_count _)]
  rw [loadM_bind _ _ _ _ _ (ld64_sv p.line_start_clock_count _)]
  rw [loadM_bind _ _ _ _ _ (ldFifo_sv p.background_fifo _)]
  rw [loadM_bind _ _ _ _ _ (ldFifo_sv p.sprite_fifo _)]
  rw [loadM_bind _ _ _ _ _ (ld8_sv p.fetcher_step _)]
  rw [loadM_bind _ _ _ _ _ (ld8_sv p.fetcher_x _)]
  rw [loadM_bind _ _ _ _ _ (ld8_sv p.fetch_tile_number _)]
  rw [loadM_bind _ _ _ _ _ (ld8_sv p.fetch_tile_data_low _)]
  rw [loadM_bind _ _ _ _ _ (ld8_sv p.fetch_tile_data_hight _)]
  rw [loadM_bind _ _ _ _ _ (ldBools6_sv p.reach_window p.is_in_window
    p.fetcher_skipped_first_push p.sprite_fetching p.fetcher_cycle p.stat_signal _)]
  rw [loadM_bind _ _ _ _ _ (ld8_sv p.curr_x _)]
  rw [loadM_bind _ _ _ _ _ (ld8_sv p.discarting _)]
  rfl


/-- Decoding a save stream consumes it entirely and produces exactly the
normal form of the saved machine: the sound-controller desync check passes
because `save_state` catches the sound controller up to `clock_count` before
serialising it. -/
theorem ldGameBoy_save (tgt gb : GameBoy) :
    ldGameBoy tgt (GameBoy.save_state gb) = Except.ok (normGB tgt gb, []) := by
  unfold ldGameBoy GameBoy.save_state
  simp only [List.append_assoc]
  rw [loadM_bind _ _ _ _ _ (ldCpu_sv gb.cpu _)]
  rw [loadM_bind _ _ _ _ _ (ldCart_sv gb.cartridgeSav _)]
  rw [loadM_bind _ _ _ _ _ (ldBytes_sv 0x2000 gb.wram _)]
  rw [loadM_bind _ _ _ _ _ (ldBytes_sv 0x7F gb.hram _)]
  rw [loadM_bind _ _ _ _ _ (ldBools1_sv gb.boot_rom_active _)]
  rw [loadM_bind _ _ _ _ _ (ld64_sv gb.clock_count _)]
  rw [loadM_bind _ _ _ _ _ (ldTimer_sv gb.timer _)]
  rw [loadM_bind _ _ _ _ _ (ld64_sv (soundUpdate gb.clock_count gb.sound_last_clock) _)]
  rw [if_neg (fun h => h rfl)]
  rw [loadM_bind _ _ _ _ _ (loadM_pure PUnit.unit _)]
  rw [loadM_bind _ _ _ _ _ (ldPpu_sv tgt.ppu gb.ppu _)]
  rw [loadM_bind _ _ _ _ _ (ld8_sv gb.joypad _)]
  rw [show sv8 gb.joypad_io = sv8 gb.joypad_io ++ [] from (List.append_nil _).symm]
  rw [loadM_bind _ _ _ _ _ (ld8_sv gb.joypad_io [])]
  rfl


theorem sv8_mod (v : Nat) : sv8 (v % 256) = sv8 v := by
  unfold sv8
  rw [Nat.mod_mod_of_dvd _ (dvd_refl 256)]

theorem sv16_mod (v : Nat) : sv16 (v % U16) = sv16 v := by
  unfold sv16 U16
  rw [Nat.shiftRight_eq_div_pow, Nat.shiftRight_eq_div_pow]
  norm_num
  omega

/-- Serialising a `u64` ignores anything above 2^64. -/
theorem sv64_mod (v : Nat) : sv64 (v % U64) = sv64 v := by
  unfold sv64
  refine List.map_congr_left ?_
  intro i hi
  have hi8 : i < 8 := List.mem_range.mp hi
  rw [Nat.shiftRight_eq_div_pow, Nat.shiftRight_eq_div_pow]
  unfold U64
  interval_cases i <;> norm_num <;> omega

theorem svBytes_getD (n : Nat) (f : Nat → Nat) (i : Nat) (hi : i < n) :
    (svBytes n f).getD i 0 = f i % 256 := by
  unfold svBytes
  rw [List.getD_eq_getElem?_getD, List.getElem?_map, List.getElem?_range hi]
  rfl

/-- A decoded byte array re-serialises to the same bytes. -/
theorem svBytes_norm (n : Nat) (f : Nat → Nat) :
    svBytes n (fun i => (svBytes n f).getD i 0) = svBytes n f := by
  unfold svBytes
  refine List.map_congr_left ?_
  intro i hi
  have h := svBytes_getD n f i (List.mem_range.mp hi)
  unfold svBytes at h
  dsimp only
  rw [h, Nat.mod_mod_of_dvd _ (dvd_refl 256)]

theorem svSprite_norm (s : Sprite) : svSprite (normSprite s) = svSprite s := by
  unfold svSprite normSprite
  simp only [Nat.mod_mod_of_dvd _ (dvd_refl 256)]

theorem svFifo_norm (f : PixelFifo) : svFifo (normFifo f) = svFifo f := by
  unfold svFifo
  rw [show (normFifo f).queue = fun i => (svBytes 16 f.queue).getD i 0 from rfl,
    show (normFifo f).head = f.head % 256 from rfl,
    show (normFifo f).tail = f.tail % 256 from rfl,
    svBytes_norm, sv8_mod, sv8_mod]

theorem svSpriteBuffer_norm (buf : List Sprite) :
    svSpriteBuffer (normSpriteBuffer buf) = svSpriteBuffer buf := by
  unfold svSpriteBuffer normSpriteBuffer
  refine congrArg List.flatten (List.map_congr_left ?_)
  intro i hi
  have hi10 : i < 10 := List.mem_range.mp hi
  rw [List.getD_eq_getElem?_getD, List.getElem?_map, List.getElem?_range hi10]
  show svSprite (normSprite (buf.getD i Inhabited.default)) = _
  exact svSprite_norm _

theorem svTimer_norm (t : Timer) : svTimer (normTimer t) = svTimer t := by
  unfold svTimer normTimer
  rw [sv16_mod, sv8_mod, sv8_mod, sv8_mod, sv64_mod]

theorem svCpu_norm (c : Cpu) : svCpu (normCpu c) = svCpu c := by
  unfold svCpu normCpu
  rw [sv8_mod, sv8_mod, sv8_mod, sv8_mod, sv8_mod, sv8_mod, sv8_mod, sv8_mod,
    sv16_mod, sv16_mod, sv8_mod, sv8_mod]

theorem svPpu_norm (p : Ppu) : svPpu (normPpu p) = svPpu p := by
  unfold svPpu normPpu
  rw [svBytes_norm, svBytes_norm, svBytes_norm, svSpriteBuffer_norm,
    sv8_mod, sv8_mod, sv8_mod, sv8_mod, sv8_mod, sv8_mod, sv8_mod, sv8_mod, sv8_mod,
    sv8_mod, sv8_mod, sv8_mod, sv8_mod, sv8_mod, sv8_mod,
    sv64_mod, sv64_mod, svFifo_norm, svFifo_norm,
    sv8_mod, sv8_mod, sv8_mod, sv8_mod, sv8_mod, sv8_mod, sv8_mod]

/-- The decoded machine re-serialises to the byte stream it was decoded
from. -/
theorem save_norm (tgt gb : GameBoy) :
    GameBoy.save_state (normGB tgt gb) = GameBoy.save_state gb := by
  unfold GameBoy.save_state normGB
  dsimp only
  rw [svCpu_norm,
    show svCart (fun i => (svCart gb.cartridgeSav).getD i 0) = svCart gb.cartridgeSav
      from svBytes_norm cartSavLen gb.cartridgeSav,
    svBytes_norm, svBytes_norm, svTimer_norm, svPpu_norm, sv8_mod, sv8_mod,
    show soundUpdate (gb.clock_count % U64) (gb.clock_count % U64)
      = gb.clock_count % U64 from rfl,
    sv64_mod,
    show soundUpdate gb.clock_count gb.sound_last_clock = gb.clock_count from rfl]

/-- C6: Save → Load → Save round-trips byte-identically, for every source
machine `gb` and every load target `tgt`: loading the saved bytes succeeds
(producing the normal form `normGB tgt gb`, the saved machine with every field
reduced to its serialised width), and saving that machine reproduces the first
byte sequence exactly. -/
theorem c6_save_load_save (tgt gb : GameBoy) :
    GameBoy.load_state tgt (GameBoy.save_state gb) = Except.ok (normGB tgt gb)
    ∧ GameBoy.save_state (normGB tgt gb) = GameBoy.save_state gb := by
  constructor
  · unfold GameBoy.load_state
    rw [ldGameBoy_save]
    rfl
  · exact save_norm tgt gb

/-- The decoder's only clock check: a serialised sound-controller clock that
differs from the decoded `clock_count` aborts the load. -/
theorem ldGameBoy_sound_desync (tgt : GameBoy) (cpu : Cpu) (cart wram hram : Nat → Nat)
    (b : Bool) (c : Nat) (t : Timer) (s : Nat) (rest : List Nat)
    (h : s % U64 ≠ c % U64) :
    ldGameBoy tgt
      (svCpu cpu ++ svCart cart ++ svBytes 0x2000 wram ++ svBytes 0x7F hram
        ++ svBools [b] ++ sv64 c ++ svTimer t ++ sv64 s ++ rest)
      = Except.error (LErr.soundControllerDesync (s % U64) (c % U64)) := by
  unfold ldGameBoy
  simp only [List.append_assoc]
  rw [loadM_bind _ _ _ _ _ (ldCpu_sv cpu _)]
  rw [loadM_bind _ _ _ _ _ (ldCart_sv cart _)]
  rw [loadM_bind _ _ _ _ _ (ldBytes_sv 0x2000 wram _)]
  rw [loadM_bind _ _ _ _ _ (ldBytes_sv 0x7F hram _)]
  rw [loadM_bind _ _ _ _ _ (ldBools1_sv b _)]
  rw [loadM_bind _ _ _ _ _ (ld64_sv c _)]
  rw [loadM_bind _ _ _ _ _ (ldTimer_sv t _)]
  rw [loadM_bind _ _ _ _ _ (ld64_sv s _)]
  rw [if_pos h]
  rfl

/-- C7 (amended): `load_state` returns a desync error only for the
sound controller — when the decoded sound-controller clock differs from the
decoded `clock_count`, the load stops with
`SoundControllerDesync(sound_clock, clock_count)` carrying the two clock
values; the PPU's and timer's clocks are never compared (see the
counterexample, where a desynced timer loads without error). -/
theorem c7_sound_desync_amended (tgt : GameBoy) (cpu : Cpu) (cart wram hram : Nat → Nat)
    (b : Bool) (c : Nat) (t : Timer) (s : Nat) (rest : List Nat)
    (h : s % U64 ≠ c % U64) :
    GameBoy.load_state tgt
      (svCpu cpu ++ svCart cart ++ svBytes 0x2000 wram ++ svBytes 0x7F hram
        ++ svBools [b] ++ sv64 c ++ svTimer t ++ sv64 s ++ rest)
      = Except.error (LErr.soundControllerDesync (s % U64) (c % U64)) := by
  unfold GameBoy.load_state
  rw [ldGameBoy_sound_desync tgt cpu cart wram hram b c t s rest h]
  rfl

/-- C7 (witness): a concrete stream whose sound clock (1) differs from its
`clock_count` (0) is rejected with `SoundControllerDesync 1 0`. -/
theorem c7_sound_desync_amended_witness :
    (1 : Nat) % U64 ≠ 0 % U64
    ∧ GameBoy.load_state gbBase
        (svCpu Cpu.default ++ svCart (fun _ => 0) ++ svBytes 0x2000 (fun _ => 0)
          ++ svBytes 0x7F (fun _ => 0) ++ svBools [false] ++ sv64 0 ++ svTimer Timer.default
          ++ sv64 1 ++ [])
        = Except.error (LErr.soundControllerDesync (1 % U64) (0 % U64)) :=
  ⟨by decide, c7_sound_desync_amended gbBase Cpu.default (fun _ => 0) (fun _ => 0)
    (fun _ => 0) false 0 Timer.default 1 [] (by decide)⟩

/-- C7 (counterexample): a machine whose timer `last_clock_count` (7) differs
from `clock_count` (0) saves and then loads back **successfully** — the claim
that any of PPU/timer/sound arriving desynced yields an error is false: only
the sound controller is checked. -/
theorem c7_timer_desync_loads_ok_cex :
    GameBoy.load_state gbBase (GameBoy.save_state gbDesync)
      = Except.ok (normGB gbBase gbDesync)
    ∧ (normGB gbBase gbDesync).timer.last_clock_count = 7
    ∧ (normGB gbBase gbDesync).clock_count = 0
    ∧ (normGB gbBase gbDesync).timer.last_clock_count ≠ (normGB gbBase gbDesync).clock_count := by
  refine ⟨?_, by decide, by decide, by decide⟩
  unfold GameBoy.load_state
  rw [ldGameBoy_save]
  rfl

end GBCore
